import Mathlib

/-!
Verification of the misnersplunktool health-report engine
(`misnersplunkdwrapper.py` / `misnersplunktool.py`) against its
natural-language specification.  The Python code is shallowly embedded:
Python strings are Lean `String`s, machine integers are `Int`, Python
floats arising from config thresholds and parsed percentages are exact
decimals (`Dec`),
`None`-able booleans are `Option Bool`, and Python exceptions are the
`Except` monad.
-/

/-- Python exception classes that can escape the embedded code. -/
inductive PyErr where
  | indexError
  | valueError
  | keyError
  deriving DecidableEq, Repr

/-- One row of the health report (`self.report` entries). -/
structure Row where
  category : String
  name : String
  health : String
  value : String
  deriving DecidableEq, Repr

/-- Python truthiness of an `Option Bool` attribute (default `None` is falsy). -/
def pyTruthyOB : Option Bool → Bool
  | none => false
  | some b => b

/-- Python truthiness of an integer attribute (zero is falsy). -/
def iTruthy (i : Int) : Bool := i != 0

/-- Exact decimal number `num / 10 ^ scale`: models the Python floats the
program manipulates (config thresholds such as `5.0` and parsed percentage
strings such as `"42.5"`), all of which are short decimal literals that
IEEE-754 comparison orders exactly like the rationals they denote. -/
structure Dec where
  num : Int
  scale : Nat
  deriving DecidableEq, Repr

/-- Comparison `a <= b` of two decimals (cross-multiplied, exact). -/
def Dec.le (a b : Dec) : Bool := a.num * 10 ^ b.scale ≤ b.num * 10 ^ a.scale

/-- Python truthiness of a float-typed config value (`0.0` is falsy). -/
def Dec.truthy (a : Dec) : Bool := a.num != 0

/-- Python `%i` formatting of a float: truncation toward zero. -/
def Dec.trunc (a : Dec) : Int := a.num.tdiv (10 ^ a.scale)

/-- The decimal denoting a natural number literal. -/
def Dec.ofNat (n : Nat) : Dec := ⟨(n : Int), 0⟩

/-- Python `str()` of a `None`-able boolean. -/
def pyStrOB : Option Bool → String
  | none => "None"
  | some true => "True"
  | some false => "False"

instance {ε α : Type} [DecidableEq ε] [DecidableEq α] : DecidableEq (Except ε α)
  | Except.error e, Except.error f => decidable_of_iff (e = f) (by simp)
  | Except.error _, Except.ok _ => isFalse (by simp)
  | Except.ok _, Except.error _ => isFalse (by simp)
  | Except.ok a, Except.ok b => decidable_of_iff (a = b) (by simp)

/-- Python `list.__getitem__`: raises `IndexError` past the end. -/
def pyIndex {α : Type} (l : List α) (i : Nat) : Except PyErr α :=
  match l.get? i with
  | some a => Except.ok a
  | none => Except.error PyErr.indexError

/-- Python `str.split(sep)` for a single-character separator, over the
character list of the string (`"".split('.') == ['']`). -/
def splitOnChar (sep : Char) : List Char → List (List Char)
  | [] => [[]]
  | c :: cs =>
    match splitOnChar sep cs with
    | [] => if c = sep then [[], []] else [[c]]
    | h :: t => if c = sep then [] :: h :: t else (c :: h) :: t

/-- Numeric value of a non-empty all-digit character list. -/
def digitsVal (l : List Char) : Option Nat :=
  if l.isEmpty then none
  else
    l.foldl
      (fun acc c =>
        match acc with
        | none => none
        | some n => if c.isDigit then some (n * 10 + (c.toNat - 48)) else none)
      (some 0)

/-- Python `float()` restricted to plain decimal literals `digits`,
`digits.digits`, `digits.` and `.digits` (the only shapes the program
feeds it); exotic accepted shapes (signs, exponents, whitespace) are
treated as parse failures, which only ever narrows the success set. -/
def parseFloatPy (l : List Char) : Option Dec :=
  match splitOnChar '.' l with
  | [ip] => (digitsVal ip).map Dec.ofNat
  | [ip, fp] =>
    if ip.isEmpty && fp.isEmpty then none
    else
      match (if ip.isEmpty then some 0 else digitsVal ip),
          (if fp.isEmpty then some 0 else digitsVal fp) with
      | some a, some b => some ⟨(a : Int) * 10 ^ fp.length + (b : Int), fp.length⟩
      | _, _ => none
  | _ => none

/-- `float(self.version.split('.')[0] + '.' + self.version.split('.')[1])`
from the Version healthcheck: `IndexError` when the version string has no
second dot-component, `ValueError` when the rebuilt literal does not parse. -/
def versionMinor (v : String) : Except PyErr Dec := do
  let parts := splitOnChar '.' v.data
  let p0 ← pyIndex parts 0
  let p1 ← pyIndex parts 1
  match parseFloatPy (p0 ++ '.' :: p1) with
  | some q => Except.ok q
  | none => Except.error PyErr.valueError

/-- A single-quote character, used by the Disk Usage value string. -/
def squote : String := String.singleton (Char.ofNat 39)

-- Snapshot sub-records (shapes of the dictionaries held in the list
-- attributes of `Splunkd`, restricted to the keys `report_builder` and the
-- topology builder read).

/-- Entry of `self.messages`. -/
structure Message where
  severity : String
  title : String
  deriving DecidableEq, Repr

/-- Entry of `self.disk_partitions` (`'used'` is a formatted string such
as `"42.0%"`; `report_builder` re-parses it). -/
structure Mount where
  name : String
  total : String
  used : String
  deriving DecidableEq, Repr

/-- Entry of `self.deployment_clients`. -/
structure DeploymentClient where
  dns : String
  mgmt : String
  deriving DecidableEq, Repr

/-- Entry of `self.cluster_peers`, `self.cluster_searchheads` or
`self.shcluster_members` (only `'location'` is read). -/
structure LocEntry where
  location : String
  deriving DecidableEq, Repr

/-- Entry of `self.distributedsearch_peers`. -/
structure DistsearchPeer where
  peerName : String
  deriving DecidableEq, Repr

/-- Entry of `self.forward_servers`. -/
structure ForwardServer where
  title : String
  deriving DecidableEq, Repr

/-- Entry of `self.cookedtcp_status`. -/
structure CookedTcp where
  source : String
  deriving DecidableEq, Repr

/-- Entry of `self.license_slaves`. -/
structure LicenseSlave where
  label : String
  deriving DecidableEq, Repr

/-- The `InstanceSnapshot`: the attributes of the `Splunkd` wrapper object
that `report_builder`, the primary-role classifier and the topology builder
consume.  Integer-typed attributes default to `0`, string attributes to
`"(unknown)"` (or `""`), booleans to `None` (`Option.none`) and lists to
`[]` in the Python constructor; the fields here are unrestricted so that
theorems quantify over every reachable (and unreachable) snapshot. -/
structure Splunkd where
  mgmt_host : String
  mgmt_port : Int
  server_name : String
  guid : String
  stype : String
  roles : List String
  primary_role : String
  os : String
  http_server : Option Bool
  http_port : Int
  http_ssl : Option Bool
  version : String
  mode : String
  startup_time : Int
  startup_time_formatted : String
  messages : List Message
  health_splunkd_overall : String
  health_splunkd_features : List (String × String)
  cores : Int
  ram : String
  cpu_usage : Int
  mem_usage : Int
  swap_usage : Int
  disk_partitions : List Mount
  receiving_ports : List Int
  rawtcp_ports : List Int
  udp_ports : List Int
  cluster_replicationport : Int
  kvstore_port : Int
  deployment_server : String
  deployment_clients : List DeploymentClient
  cluster_master_uri : String
  cluster_peers : List LocEntry
  cluster_searchheads : List LocEntry
  shcluster_deployer : String
  shcluster_members : List LocEntry
  distributedsearch_peers : List DistsearchPeer
  forward_servers : List ForwardServer
  cookedtcp_status : List CookedTcp
  license_master : String
  license_slaves : List LicenseSlave
  cluster_label : String
  cluster_mode : String
  cluster_site : String
  cluster_maintenance : Option Bool
  cluster_rollingrestart : Option Bool
  cluster_alldatasearchable : Option Bool
  cluster_searchfactor : Int
  cluster_searchfactormet : Option Bool
  cluster_replicationfactor : Int
  cluster_replicationfactormet : Option Bool
  cluster_peers_searchable : Int
  cluster_searchheads_connected : Int
  shcluster_label : String
  shcluster_replicationfactor : Int
  shcluster_rollingrestart : Option Bool
  shcluster_serviceready : Option Bool
  shcluster_minpeersjoined : Option Bool
  apps : List String
  deriving DecidableEq, Repr

/-- The `HealthcheckConfig`.  `main_window.healthchecks` always starts from
the complete `HEALTHCHECKS` default dictionary and the config file can only
override values, so every key is present; a total structure is therefore a
faithful model of the dictionary `report_builder` receives.  Numeric
thresholds follow the types of the defaults (`version_*` and
`diskpartition_*` are compared against parsed floats, the rest against
integers); boolean checks are `Bool`.  Python falsiness (`0`, `0.0`,
`False`) disables a check. -/
structure Healthchecks where
  version_caution : Dec
  version_warning : Dec
  uptime_caution : Int
  uptime_warning : Int
  cpu_cores_caution : Int
  mem_capacity_caution : Int
  http_ssl_caution : Bool
  messages_caution : Bool
  cpu_usage_caution : Int
  cpu_usage_warning : Int
  mem_usage_caution : Int
  mem_usage_warning : Int
  swap_usage_caution : Int
  swap_usage_warning : Int
  diskpartition_usage_caution : Dec
  diskpartition_usage_warning : Dec
  cluster_maintenance_caution : Bool
  cluster_rollingrestart_caution : Bool
  cluster_alldatasearchable_warning : Bool
  cluster_searchfactor_caution : Bool
  cluster_replicationfactor_caution : Bool
  cluster_peersnotsearchable_warning : Bool
  cluster_searchheadsnotconnected_warning : Bool
  shcluster_rollingrestart_caution : Bool
  shcluster_serviceready_warning : Bool
  shcluster_minpeersjoined_warning : Bool
  deriving DecidableEq, Repr

-- The primary-role classifier (`poll_service_info`, the if/elif chain
-- guessing the instance's primary role from `server_roles` and `mode`).

/-- The Role Classifier: first-match-wins evaluation of the fixed ordered
rule chain of `poll_service_info`. -/
def primaryRoleGuess (roles : List String) (mode : String) : String :=
  if "universal_forwarder" ∈ roles then "Universal Forwarder"
  else if "management_console" ∈ roles then "Management Console"
  else if "cluster_slave" ∈ roles then "Indexer (Cluster Slave)"
  else if "indexer" ∈ roles then "Indexer (Standalone)"
  else if "shc_deployer" ∈ roles then "Deployer (SHC)"
  else if "shc_captain" ∈ roles then "Search Head (SHC Captain)"
  else if "shc_member" ∈ roles then "Search Head (SHC Member)"
  else if "cluster_master" ∈ roles then "Cluster Master"
  else if "search_head" ∈ roles then "Search Head (Standalone)"
  else if "deployment_server" ∈ roles then "Deployment Server"
  else if "heavyweight_forwarder" ∈ roles then "Heavy Forwarder"
  else if "license_master" ∈ roles then "License Master"
  else if mode = "dedicated forwarder" then "Forwarder"
  else "Heavy Forwarder"

-- `report_builder`, section by section.  Each `...Rows` definition is the
-- translation of one contiguous block of the Python method; `reportBuilder`
-- concatenates them in source order.  The method appends rows only through
-- the local helper `report_append`, embedded as `reportAppend`.

/-- The `report_append` helper: normalizes health `"N/A"` and value
`"(none)"` to the empty string before storing the row. -/
def reportAppend (category name health value : String) : Row :=
  { category := category
    name := name
    health := if health = "N/A" then "" else health
    value := if value = "(none)" then "" else value }

/-- The eight unconditional `Server` rows. -/
def serverRows (s : Splunkd) : List Row :=
  [reportAppend "Server" "Address" "N/A" (s.mgmt_host ++ ":" ++ toString s.mgmt_port),
   reportAppend "Server" "Server Name" "N/A" s.server_name,
   reportAppend "Server" "GUID" "N/A" s.guid,
   reportAppend "Server" "Type" "N/A" s.stype,
   reportAppend "Server" "Roles" "N/A" (String.intercalate ", " s.roles),
   reportAppend "Server" "Primary Role Guess" "N/A" s.primary_role,
   reportAppend "Server" "OS" "N/A" s.os,
   reportAppend "Server" "Web Enabled" "N/A" (pyStrOB s.http_server)]

/-- The Version healthcheck block.  Parsing the major.minor component of a
malformed version string raises (`IndexError`/`ValueError`), aborting the
whole report. -/
def versionRows (s : Splunkd) (hc : Healthchecks) : Except PyErr (List Row) :=
  if hc.version_warning.truthy || hc.version_caution.truthy then
    if s.version ≠ "" then
      match versionMinor s.version with
      | Except.error e => Except.error e
      | Except.ok mv =>
        Except.ok [reportAppend "Server" "Version"
          (if Dec.le mv hc.version_warning then "Warning"
           else if Dec.le mv hc.version_caution then "Caution" else "OK")
          s.version]
    else Except.ok [reportAppend "Server" "Version" "Unknown" "?"]
  else Except.ok []

/-- The Uptime healthcheck block; `now` is the value of `int(time.time())`
at the moment the report is built. -/
def uptimeRows (s : Splunkd) (hc : Healthchecks) (now : Int) : List Row :=
  if iTruthy hc.uptime_warning || iTruthy hc.uptime_caution then
    [if iTruthy s.startup_time then
       reportAppend "Server" "Uptime"
         (if now - s.startup_time < hc.uptime_warning then "Warning"
          else if now - s.startup_time < hc.uptime_caution then "Caution" else "OK")
         s.startup_time_formatted
     else reportAppend "Server" "Uptime" "Unknown" "?"]
  else []

/-- The HTTP SSL healthcheck block, translated exactly as written: when
`http_ssl` is truthy (SSL enabled) control falls into the `else` branch and
the row is emitted with health `Unknown`, value `"?"`; the `OK`/`"True"`
assignment sits in the dead inner `else` of `if healthchecks['http_ssl_caution']`,
which the outer gate has already made unreachable. -/
def httpSslRows (s : Splunkd) (hc : Healthchecks) : List Row :=
  if hc.http_ssl_caution then
    [if !pyTruthyOB s.http_ssl then
       (if hc.http_ssl_caution then reportAppend "Server" "HTTP SSL" "Caution" "False"
        else reportAppend "Server" "HTTP SSL" "OK" "True")
     else reportAppend "Server" "HTTP SSL" "Unknown" "?"]
  else []

/-- The Messages healthcheck block.  The source compares
`str(message['severity']).lower` — a bound method, not its result — with
`'info'`, so the inequality is always true and every message turns health
to `Caution` and contributes its title. -/
def messagesRows (s : Splunkd) (hc : Healthchecks) : List Row :=
  if hc.messages_caution then
    [if s.messages.isEmpty then reportAppend "Server" "Messages" "OK" "None"
     else
       let acc := s.messages.foldl
         (fun (p : String × List String) m => ("Caution", p.2 ++ [m.title])) ("OK", [])
       reportAppend "Server" "Messages" acc.1
         (if acc.2.isEmpty then "None" else String.intercalate ", " acc.2)]
  else []

/-- The Splunkd Health row (gated on the overall health string being
non-empty, not on a configurable healthcheck). -/
def splunkdHealthRows (s : Splunkd) : List Row :=
  if s.health_splunkd_overall ≠ "" then
    [if s.health_splunkd_overall = "green" then
       reportAppend "Server" "Splunkd Health" "OK" "Green"
     else if s.health_splunkd_overall = "yellow" then
       reportAppend "Server" "Splunkd Health" "Caution" "Yellow"
     else if s.health_splunkd_overall = "red" then
       reportAppend "Server" "Splunkd Health" "Warning" "Red"
     else reportAppend "Server" "Splunkd Health" "Unknown" s.health_splunkd_overall]
  else []

/-- The per-feature Splunkd health row (health is the `'N/A'` sentinel,
normalized to the empty string by `report_append`). -/
def featuresRows (s : Splunkd) : List Row :=
  if s.health_splunkd_features.isEmpty then []
  else
    let features := s.health_splunkd_features.map (fun f => f.1 ++ " = " ++ f.2)
    [reportAppend "Server" "Splunkd Health (by feature)" "N/A"
      (if features.isEmpty then "None" else String.intercalate ", " features)]

/-- The CPU Cores healthcheck block. -/
def cpuCoresRows (s : Splunkd) (hc : Healthchecks) : List Row :=
  if iTruthy hc.cpu_cores_caution then
    [if iTruthy s.cores then
       reportAppend "Resources" "CPU Cores"
         (if s.cores < hc.cpu_cores_caution then "Caution" else "OK") (toString s.cores)
     else reportAppend "Resources" "CPU Cores" "Unknown" "?"]
  else []

/-- The RAM Size healthcheck block.  `poll_service_info` stores
`physicalMemoryMB` without an `int()` conversion, so a polled `self.ram`
is a Python 2 string (the falsy constructor default `0` and the falsy
empty string are both modeled as `""`); the comparison
`self.ram < healthchecks['mem_capacity_caution']` is then `str < int`,
which is always `False` in Python 2 (numbers sort before all other
types), so a polled value always reports `OK` — the `Caution` arm of the
conditional expression is dead. -/
def ramRows (s : Splunkd) (hc : Healthchecks) : List Row :=
  if iTruthy hc.mem_capacity_caution then
    [if s.ram ≠ "" then
       reportAppend "Resources" "RAM Size" "OK" (s.ram ++ " MB")
     else reportAppend "Resources" "RAM Size" "Unknown" "?"]
  else []

/-- The shared shape of the CPU/RAM/Swap usage healthcheck blocks (the
source repeats this block verbatim for the three metrics). -/
def usageRows (label : String) (v warn caut : Int) : List Row :=
  if iTruthy warn || iTruthy caut then
    [if iTruthy v then
       reportAppend "Resources" label
         (if v ≥ warn then "Warning" else if v ≥ caut then "Caution" else "OK")
         (toString v ++ "%")
     else reportAppend "Resources" label "Unknown" "?"]
  else []

/-- The CPU Usage healthcheck block. -/
def cpuUsageRows (s : Splunkd) (hc : Healthchecks) : List Row :=
  usageRows "CPU Usage" s.cpu_usage hc.cpu_usage_warning hc.cpu_usage_caution

/-- The RAM Usage healthcheck block. -/
def memUsageRows (s : Splunkd) (hc : Healthchecks) : List Row :=
  usageRows "RAM Usage" s.mem_usage hc.mem_usage_warning hc.mem_usage_caution

/-- The Swap Usage healthcheck block. -/
def swapUsageRows (s : Splunkd) (hc : Healthchecks) : List Row :=
  usageRows "Swap Usage" s.swap_usage hc.swap_usage_warning hc.swap_usage_caution

/-- The loop body of the Disk Usage check: walks the mounts accumulating
the aggregate health string and the per-mount value strings; a `used`
field whose prefix (the string minus its trailing `%`) does not parse as a
float raises `ValueError`. -/
def diskFold (hc : Healthchecks) :
    List Mount → String → List String → Except PyErr (String × List String)
  | [], health, mounts => Except.ok (health, mounts)
  | m :: rest, health, mounts =>
    match parseFloatPy m.used.data.dropLast with
    | none => Except.error PyErr.valueError
    | some pu =>
      diskFold hc rest
        (if Dec.le hc.diskpartition_usage_warning pu && (health = "OK" || health = "Caution")
         then "Warning"
         else if Dec.le hc.diskpartition_usage_caution pu && health = "OK"
         then "Caution"
         else health)
        (mounts ++ [squote ++ m.name ++ squote ++ " " ++ toString pu.trunc ++ "% of " ++ m.total])

/-- The Disk Usage healthcheck block. -/
def diskRows (s : Splunkd) (hc : Healthchecks) : Except PyErr (List Row) :=
  if hc.diskpartition_usage_warning.truthy || hc.diskpartition_usage_caution.truthy then
    if s.disk_partitions.isEmpty then
      Except.ok [reportAppend "Resources" "Disk Usage" "Unknown" "?"]
    else
      match diskFold hc s.disk_partitions "OK" [] with
      | Except.error e => Except.error e
      | Except.ok r =>
        Except.ok [reportAppend "Resources" "Disk Usage" r.1
          (if r.2.isEmpty then "None" else String.intercalate ", " r.2)]
  else Except.ok []

/-- The seven unconditional `Ports` rows. -/
def portsRows (s : Splunkd) : List Row :=
  [reportAppend "Ports" "Management Port" "N/A" (toString s.mgmt_port),
   reportAppend "Ports" "Web Port" "N/A" (toString s.http_port),
   reportAppend "Ports" "Receiving Ports" "N/A"
     (String.intercalate ", " (s.receiving_ports.map toString)),
   reportAppend "Ports" "TCP Input Ports" "N/A"
     (String.intercalate ", " (s.rawtcp_ports.map toString)),
   reportAppend "Ports" "UDP Input Ports" "N/A"
     (String.intercalate ", " (s.udp_ports.map toString)),
   reportAppend "Ports" "Replication Port" "N/A" (toString s.cluster_replicationport),
   reportAppend "Ports" "KV Store Port" "N/A" (toString s.kvstore_port)]

/-- The twelve unconditional `Adjacencies` rows. -/
def adjacencyRows (s : Splunkd) : List Row :=
  [reportAppend "Adjacencies" "Deployment Server" "N/A" s.deployment_server,
   reportAppend "Adjacencies" "Deployment Clients" "N/A"
     (String.intercalate ", " (s.deployment_clients.map (fun c => c.dns ++ ":" ++ c.mgmt))),
   reportAppend "Adjacencies" "IDXC Master Node" "N/A" s.cluster_master_uri,
   reportAppend "Adjacencies" "IDXC Peer Nodes" "N/A"
     (String.intercalate ", " (s.cluster_peers.map LocEntry.location)),
   reportAppend "Adjacencies" "IDXC Search Heads" "N/A"
     (String.intercalate ", " (s.cluster_searchheads.map LocEntry.location)),
   reportAppend "Adjacencies" "SHC Deployer" "N/A" s.shcluster_deployer,
   reportAppend "Adjacencies" "SHC Members" "N/A"
     (String.intercalate ", " (s.shcluster_members.map LocEntry.location)),
   reportAppend "Adjacencies" "Search Peers" "N/A"
     (String.intercalate ", " (s.distributedsearch_peers.map DistsearchPeer.peerName)),
   reportAppend "Adjacencies" "Receivers (Forward Servers)" "N/A"
     (String.intercalate ", " (s.forward_servers.map ForwardServer.title)),
   reportAppend "Adjacencies" "Forwarders (Cooked TCP Connections)" "N/A"
     (String.intercalate ", " (s.cookedtcp_status.map CookedTcp.source)),
   reportAppend "Adjacencies" "License Master" "N/A" s.license_master,
   reportAppend "Adjacencies" "License Slaves" "N/A"
     (String.intercalate ", " (s.license_slaves.map LicenseSlave.label))]

/-- The IDXC Maintenance Mode boolean check. -/
def clusterMaintRows (s : Splunkd) (hc : Healthchecks) : List Row :=
  if hc.cluster_maintenance_caution then
    [if pyTruthyOB s.cluster_maintenance then
       reportAppend "Cluster" "IDXC Maintenance Mode" "Caution" "True"
     else reportAppend "Cluster" "IDXC Maintenance Mode" "OK" "False"]
  else []

/-- The IDXC Rolling Restart boolean check. -/
def clusterRRRows (s : Splunkd) (hc : Healthchecks) : List Row :=
  if hc.cluster_rollingrestart_caution then
    [if pyTruthyOB s.cluster_rollingrestart then
       reportAppend "Cluster" "IDXC Rolling Restart" "Caution" "True"
     else reportAppend "Cluster" "IDXC Rolling Restart" "OK" "False"]
  else []

/-- The IDXC All Data Searchable boolean check. -/
def clusterADSRows (s : Splunkd) (hc : Healthchecks) : List Row :=
  if hc.cluster_alldatasearchable_warning then
    [if !pyTruthyOB s.cluster_alldatasearchable then
       reportAppend "Cluster" "IDXC All Data Searchable" "Warning" "False"
     else reportAppend "Cluster" "IDXC All Data Searchable" "OK" "True"]
  else []

/-- The IDXC Search Factor Met boolean check. -/
def clusterSFMetRows (s : Splunkd) (hc : Healthchecks) : List Row :=
  if hc.cluster_searchfactor_caution then
    [if !pyTruthyOB s.cluster_searchfactormet then
       reportAppend "Cluster" "IDXC Search Factor Met" "Caution" "False"
     else reportAppend "Cluster" "IDXC Search Factor Met" "OK" "True"]
  else []

/-- The IDXC Rep Factor Met boolean check. -/
def clusterRFMetRows (s : Splunkd) (hc : Healthchecks) : List Row :=
  if hc.cluster_replicationfactor_caution then
    [if !pyTruthyOB s.cluster_replicationfactormet then
       reportAppend "Cluster" "IDXC Rep Factor Met" "Caution" "False"
     else reportAppend "Cluster" "IDXC Rep Factor Met" "OK" "True"]
  else []

/-- The IDXC Searchable Peers counted-ratio check (also gated on the peer
list being non-empty). -/
def clusterPeersRows (s : Splunkd) (hc : Healthchecks) : List Row :=
  if hc.cluster_peersnotsearchable_warning && !s.cluster_peers.isEmpty then
    [reportAppend "Cluster" "IDXC Searchable Peers"
      (if s.cluster_peers_searchable < (s.cluster_peers.length : Int) then "Warning" else "OK")
      (toString s.cluster_peers_searchable ++ " of " ++ toString s.cluster_peers.length)]
  else []

/-- The IDXC Connected Search Heads counted-ratio check. -/
def clusterSHRows (s : Splunkd) (hc : Healthchecks) : List Row :=
  if hc.cluster_searchheadsnotconnected_warning && !s.cluster_searchheads.isEmpty then
    [reportAppend "Cluster" "IDXC Connected Search Heads"
      (if s.cluster_searchheads_connected < (s.cluster_searchheads.length : Int)
       then "Warning" else "OK")
      (toString s.cluster_searchheads_connected ++ " of " ++ toString s.cluster_searchheads.length)]
  else []

/-- The Indexer Cluster section, structurally gated on the
`cluster_master` role tag. -/
def clusterRows (s : Splunkd) (hc : Healthchecks) : List Row :=
  if "cluster_master" ∈ s.roles then
    [reportAppend "Cluster" "IDXC Label" "N/A" s.cluster_label,
     reportAppend "Cluster" "IDXC Mode" "N/A" s.cluster_mode,
     reportAppend "Cluster" "IDXC Site" "N/A" s.cluster_site]
    ++ clusterMaintRows s hc ++ clusterRRRows s hc ++ clusterADSRows s hc
    ++ [reportAppend "Cluster" "IDXC Search Factor" "N/A" (toString s.cluster_searchfactor)]
    ++ clusterSFMetRows s hc
    ++ [reportAppend "Cluster" "IDXC Rep Factor" "N/A" (toString s.cluster_replicationfactor)]
    ++ clusterRFMetRows s hc ++ clusterPeersRows s hc ++ clusterSHRows s hc
  else []

/-- The SHC Rolling Restart boolean check. -/
def shcRRRows (s : Splunkd) (hc : Healthchecks) : List Row :=
  if hc.shcluster_rollingrestart_caution then
    [if pyTruthyOB s.shcluster_rollingrestart then
       reportAppend "Cluster" "SHC Rolling Restart" "Caution" "True"
     else reportAppend "Cluster" "SHC Rolling Restart" "OK" "False"]
  else []

/-- The SHC Service Ready boolean check. -/
def shcSRRows (s : Splunkd) (hc : Healthchecks) : List Row :=
  if hc.shcluster_serviceready_warning then
    [if !pyTruthyOB s.shcluster_serviceready then
       reportAppend "Cluster" "SHC Service Ready" "Warning" "False"
     else reportAppend "Cluster" "SHC Service Ready" "OK" "True"]
  else []

/-- The SHC Minimum Peers Joined boolean check. -/
def shcMPRows (s : Splunkd) (hc : Healthchecks) : List Row :=
  if hc.shcluster_minpeersjoined_warning then
    [if !pyTruthyOB s.shcluster_minpeersjoined then
       reportAppend "Cluster" "SHC Minimum Peers Joined" "Warning" "False"
     else reportAppend "Cluster" "SHC Minimum Peers Joined" "OK" "True"]
  else []

/-- The Search Head Cluster section, structurally gated on the
`shc_member` role tag. -/
def shclusterRows (s : Splunkd) (hc : Healthchecks) : List Row :=
  if "shc_member" ∈ s.roles then
    [reportAppend "Cluster" "SHC Label" "N/A" s.shcluster_label,
     reportAppend "Cluster" "SHC Rep Factor" "N/A" (toString s.shcluster_replicationfactor)]
    ++ shcRRRows s hc ++ shcSRRows s hc ++ shcMPRows s hc
  else []

/-- The three unconditional `Counts` rows. -/
def countsRows (s : Splunkd) : List Row :=
  [reportAppend "Counts" "Messages" "N/A" (toString s.messages.length),
   reportAppend "Counts" "Apps" "N/A" (toString s.apps.length),
   reportAppend "Counts" "Forwarders" "N/A" (toString s.cookedtcp_status.length)]

/-- `Splunkd.report_builder`: the Report Builder.  `now` is the wall-clock
second at which the method runs (`int(time.time())`).  The two fallible
blocks (Version, Disk Usage) run in source order, so a Version failure
masks a Disk one exactly as in Python; every other block is pure. -/
def reportBuilder (s : Splunkd) (hc : Healthchecks) (now : Int) :
    Except PyErr (List Row) :=
  match versionRows s hc with
  | Except.error e => Except.error e
  | Except.ok ver =>
    match diskRows s hc with
    | Except.error e => Except.error e
    | Except.ok disk =>
      Except.ok
        (serverRows s ++ ver ++ uptimeRows s hc now ++ httpSslRows s hc
         ++ messagesRows s hc ++ splunkdHealthRows s ++ featuresRows s
         ++ cpuCoresRows s hc ++ ramRows s hc ++ cpuUsageRows s hc
         ++ memUsageRows s hc ++ swapUsageRows s hc ++ disk ++ portsRows s
         ++ adjacencyRows s ++ clusterRows s hc ++ shclusterRows s hc
         ++ countsRows s)

/-- The row list of a successful report, `[]` when the builder raised
(convenience accessor used by closed witness statements). -/
def okRowsOf (s : Splunkd) (hc : Healthchecks) (now : Int) : List Row :=
  match reportBuilder s hc now with
  | Except.ok rows => rows
  | Except.error _ => []

/-- First report row with the given category and name, if any. -/
def findRow (rows : List Row) (category name : String) : Option Row :=
  rows.find? (fun r => r.category = category && r.name = name)
/-- The `HEALTHCHECKS` default dictionary of `misnersplunktool.py`
(`version` thresholds `5.0`/`6.0`, uptime `86400`/`604800` seconds, usage
thresholds `90`/`80` percent, every boolean check enabled). -/
def hcDefault : Healthchecks :=
  { version_caution := ⟨60, 1⟩
    version_warning := ⟨50, 1⟩
    uptime_caution := 604800
    uptime_warning := 86400
    cpu_cores_caution := 12
    mem_capacity_caution := 31744
    http_ssl_caution := true
    messages_caution := true
    cpu_usage_caution := 80
    cpu_usage_warning := 90
    mem_usage_caution := 80
    mem_usage_warning := 90
    swap_usage_caution := 80
    swap_usage_warning := 90
    diskpartition_usage_caution := ⟨80, 0⟩
    diskpartition_usage_warning := ⟨90, 0⟩
    cluster_maintenance_caution := true
    cluster_rollingrestart_caution := true
    cluster_alldatasearchable_warning := true
    cluster_searchfactor_caution := true
    cluster_replicationfactor_caution := true
    cluster_peersnotsearchable_warning := true
    cluster_searchheadsnotconnected_warning := true
    shcluster_rollingrestart_caution := true
    shcluster_serviceready_warning := true
    shcluster_minpeersjoined_warning := true }

/-- A configuration with every healthcheck disabled (all thresholds falsy). -/
def hcAllOff : Healthchecks :=
  { version_caution := ⟨0, 1⟩
    version_warning := ⟨0, 1⟩
    uptime_caution := 0
    uptime_warning := 0
    cpu_cores_caution := 0
    mem_capacity_caution := 0
    http_ssl_caution := false
    messages_caution := false
    cpu_usage_caution := 0
    cpu_usage_warning := 0
    mem_usage_caution := 0
    mem_usage_warning := 0
    swap_usage_caution := 0
    swap_usage_warning := 0
    diskpartition_usage_caution := ⟨0, 0⟩
    diskpartition_usage_warning := ⟨0, 0⟩
    cluster_maintenance_caution := false
    cluster_rollingrestart_caution := false
    cluster_alldatasearchable_warning := false
    cluster_searchfactor_caution := false
    cluster_replicationfactor_caution := false
    cluster_peersnotsearchable_warning := false
    cluster_searchheadsnotconnected_warning := false
    shcluster_rollingrestart_caution := false
    shcluster_serviceready_warning := false
    shcluster_minpeersjoined_warning := false }

/-- The attribute values the `Splunkd.__init__` constructor installs (the
state of a freshly connected, never polled instance): strings default to
`"(unknown)"` (`license_master` and `health_splunkd_overall` to `""`),
integers to `0`, booleans to `None`, lists to `[]`. -/
def splunkdInit : Splunkd :=
  { mgmt_host := "localhost"
    mgmt_port := 8089
    server_name := "(unknown)"
    guid := "(unknown)"
    stype := "(unknown)"
    roles := ["(unknown)"]
    primary_role := "(unknown)"
    os := "(unknown)"
    http_server := none
    http_port := 0
    http_ssl := none
    version := "(unknown)"
    mode := "(unknown)"
    startup_time := 0
    startup_time_formatted := "(unknown)"
    messages := []
    health_splunkd_overall := ""
    health_splunkd_features := []
    cores := 0
    ram := ""
    cpu_usage := 0
    mem_usage := 0
    swap_usage := 0
    disk_partitions := []
    receiving_ports := []
    rawtcp_ports := []
    udp_ports := []
    cluster_replicationport := 0
    kvstore_port := 0
    deployment_server := "(unknown)"
    deployment_clients := []
    cluster_master_uri := "(unknown)"
    cluster_peers := []
    cluster_searchheads := []
    shcluster_deployer := "(unknown)"
    shcluster_members := []
    distributedsearch_peers := []
    forward_servers := []
    cookedtcp_status := []
    license_master := ""
    license_slaves := []
    cluster_label := "(unknown)"
    cluster_mode := "(unknown)"
    cluster_site := "(unknown)"
    cluster_maintenance := none
    cluster_rollingrestart := none
    cluster_alldatasearchable := none
    cluster_searchfactor := 0
    cluster_searchfactormet := none
    cluster_replicationfactor := 0
    cluster_replicationfactormet := none
    cluster_peers_searchable := 0
    cluster_searchheads_connected := 0
    shcluster_label := "(unknown)"
    shcluster_replicationfactor := 0
    shcluster_rollingrestart := none
    shcluster_serviceready := none
    shcluster_minpeersjoined := none
    apps := [] }

-- scratch evaluation tests
example : reportBuilder splunkdInit hcDefault 0 = Except.error PyErr.indexError := by decide
example : findRow (okRowsOf splunkdInit hcAllOff 0) "Server" "Address"
    = some ⟨"Server", "Address", "", "localhost:8089"⟩ := by decide
example : findRow (okRowsOf { splunkdInit with cpu_usage := 95, version := "7.2.1" } hcDefault 0)
    "Resources" "CPU Usage" = some ⟨"Resources", "CPU Usage", "Warning", "95%"⟩ := by decide
example : (okRowsOf splunkdInit hcAllOff 0).length = 30 := by decide
-- Supporting lemmas

theorem reportAppend_norm (c n h v : String) :
    (reportAppend c n h v).health ≠ "N/A" ∧ (reportAppend c n h v).value ≠ "(none)" := by
  constructor
  · show (if h = "N/A" then "" else h) ≠ "N/A"
    split
    · intro hx; exact absurd hx (by decide)
    · assumption
  · show (if v = "(none)" then "" else v) ≠ "(none)"
    split
    · intro hx; exact absurd hx (by decide)
    · assumption

theorem serverRows_norm (s : Splunkd) :
    ∀ r ∈ serverRows s, r.health ≠ "N/A" ∧ r.value ≠ "(none)" := by
  intro r hr
  simp only [serverRows, List.mem_cons, List.not_mem_nil, or_false] at hr
  rcases hr with rfl | rfl | rfl | rfl | rfl | rfl | rfl | rfl <;> exact reportAppend_norm ..
theorem versionRows_norm (s : Splunkd) (hc : Healthchecks) (l : List Row)
    (h : versionRows s hc = Except.ok l) :
    ∀ r ∈ l, r.health ≠ "N/A" ∧ r.value ≠ "(none)" := by
  intro r hr
  unfold versionRows at h
  split at h
  · split at h
    · cases hv : versionMinor s.version with
      | error e => rw [hv] at h; cases h
      | ok mv =>
        rw [hv] at h
        injection h with h
        subst h
        simp only [List.mem_cons, List.not_mem_nil, or_false] at hr
        subst hr
        exact reportAppend_norm ..
    · injection h with h
      subst h
      simp only [List.mem_cons, List.not_mem_nil, or_false] at hr
      subst hr
      exact reportAppend_norm ..
  · injection h with h
    subst h
    cases hr

theorem uptimeRows_norm (s : Splunkd) (hc : Healthchecks) (now : Int) :
    ∀ r ∈ uptimeRows s hc now, r.health ≠ "N/A" ∧ r.value ≠ "(none)" := by
  intro r hr
  unfold uptimeRows at hr
  split at hr
  · simp only [List.mem_cons, List.not_mem_nil, or_false] at hr
    subst hr
    split <;> exact reportAppend_norm ..
  · cases hr

theorem httpSslRows_norm (s : Splunkd) (hc : Healthchecks) :
    ∀ r ∈ httpSslRows s hc, r.health ≠ "N/A" ∧ r.value ≠ "(none)" := by
  intro r hr
  unfold httpSslRows at hr
  split at hr
  · simp only [List.mem_cons, List.not_mem_nil, or_false] at hr
    subst hr
    split <;> exact reportAppend_norm ..
  · cases hr

theorem messagesRows_norm (s : Splunkd) (hc : Healthchecks) :
    ∀ r ∈ messagesRows s hc, r.health ≠ "N/A" ∧ r.value ≠ "(none)" := by
  intro r hr
  unfold messagesRows at hr
  split at hr
  · simp only [List.mem_cons, List.not_mem_nil, or_false] at hr
    subst hr
    split <;> exact reportAppend_norm ..
  · cases hr

theorem splunkdHealthRows_norm (s : Splunkd) :
    ∀ r ∈ splunkdHealthRows s, r.health ≠ "N/A" ∧ r.value ≠ "(none)" := by
  intro r hr
  unfold splunkdHealthRows at hr
  split at hr
  · simp only [List.mem_cons, List.not_mem_nil, or_false] at hr
    subst hr
    split
    · exact reportAppend_norm ..
    · split
      · exact reportAppend_norm ..
      · split <;> exact reportAppend_norm ..
  · cases hr

theorem featuresRows_norm (s : Splunkd) :
    ∀ r ∈ featuresRows s, r.health ≠ "N/A" ∧ r.value ≠ "(none)" := by
  intro r hr
  unfold featuresRows at hr
  split at hr
  · cases hr
  · simp only [List.mem_cons, List.not_mem_nil, or_false] at hr
    subst hr
    exact reportAppend_norm ..

theorem cpuCoresRows_norm (s : Splunkd) (hc : Healthchecks) :
    ∀ r ∈ cpuCoresRows s hc, r.health ≠ "N/A" ∧ r.value ≠ "(none)" := by
  intro r hr
  unfold cpuCoresRows at hr
  split at hr
  · simp only [List.mem_cons, List.not_mem_nil, or_false] at hr
    subst hr
    split <;> exact reportAppend_norm ..
  · cases hr

theorem ramRows_norm (s : Splunkd) (hc : Healthchecks) :
    ∀ r ∈ ramRows s hc, r.health ≠ "N/A" ∧ r.value ≠ "(none)" := by
  intro r hr
  unfold ramRows at hr
  split at hr
  · simp only [List.mem_cons, List.not_mem_nil, or_false] at hr
    subst hr
    split <;> exact reportAppend_norm ..
  · cases hr

theorem usageRows_norm (label : String) (v warn caut : Int) :
    ∀ r ∈ usageRows label v warn caut, r.health ≠ "N/A" ∧ r.value ≠ "(none)" := by
  intro r hr
  unfold usageRows at hr
  split at hr
  · simp only [List.mem_cons, List.not_mem_nil, or_false] at hr
    subst hr
    split <;> exact reportAppend_norm ..
  · cases hr

theorem diskRows_norm (s : Splunkd) (hc : Healthchecks) (l : List Row)
    (h : diskRows s hc = Except.ok l) :
    ∀ r ∈ l, r.health ≠ "N/A" ∧ r.value ≠ "(none)" := by
  intro r hr
  unfold diskRows at h
  split at h
  · split at h
    · injection h with h
      subst h
      simp only [List.mem_cons, List.not_mem_nil, or_false] at hr
      subst hr
      exact reportAppend_norm ..
    · cases hd : diskFold hc s.disk_partitions "OK" [] with
      | error e => rw [hd] at h; cases h
      | ok p =>
        rw [hd] at h
        injection h with h
        subst h
        simp only [List.mem_cons, List.not_mem_nil, or_false] at hr
        subst hr
        exact reportAppend_norm ..
  · injection h with h
    subst h
    cases hr

theorem portsRows_norm (s : Splunkd) :
    ∀ r ∈ portsRows s, r.health ≠ "N/A" ∧ r.value ≠ "(none)" := by
  intro r hr
  simp only [portsRows, List.mem_cons, List.not_mem_nil, or_false] at hr
  rcases hr with rfl | rfl | rfl | rfl | rfl | rfl | rfl <;> exact reportAppend_norm ..

theorem adjacencyRows_norm (s : Splunkd) :
    ∀ r ∈ adjacencyRows s, r.health ≠ "N/A" ∧ r.value ≠ "(none)" := by
  intro r hr
  simp only [adjacencyRows, List.mem_cons, List.not_mem_nil, or_false] at hr
  rcases hr with rfl | rfl | rfl | rfl | rfl | rfl | rfl | rfl | rfl | rfl | rfl | rfl <;>
    exact reportAppend_norm ..

theorem clusterMaintRows_norm (s : Splunkd) (hc : Healthchecks) :
    ∀ r ∈ clusterMaintRows s hc, r.health ≠ "N/A" ∧ r.value ≠ "(none)" := by
  intro r hr
  unfold clusterMaintRows at hr
  split at hr
  · simp only [List.mem_cons, List.not_mem_nil, or_false] at hr
    subst hr
    split <;> exact reportAppend_norm ..
  · cases hr

theorem clusterRRRows_norm (s : Splunkd) (hc : Healthchecks) :
    ∀ r ∈ clusterRRRows s hc, r.health ≠ "N/A" ∧ r.value ≠ "(none)" := by
  intro r hr
  unfold clusterRRRows at hr
  split at hr
  · simp only [List.mem_cons, List.not_mem_nil, or_false] at hr
    subst hr
    split <;> exact reportAppend_norm ..
  · cases hr

theorem clusterADSRows_norm (s : Splunkd) (hc : Healthchecks) :
    ∀ r ∈ clusterADSRows s hc, r.health ≠ "N/A" ∧ r.value ≠ "(none)" := by
  intro r hr
  unfold clusterADSRows at hr
  split at hr
  · simp only [List.mem_cons, List.not_mem_nil, or_false] at hr
    subst hr
    split <;> exact reportAppend_norm ..
  · cases hr

theorem clusterSFMetRows_norm (s : Splunkd) (hc : Healthchecks) :
    ∀ r ∈ clusterSFMetRows s hc, r.health ≠ "N/A" ∧ r.value ≠ "(none)" := by
  intro r hr
  unfold clusterSFMetRows at hr
  split at hr
  · simp only [List.mem_cons, List.not_mem_nil, or_false] at hr
    subst hr
    split <;> exact reportAppend_norm ..
  · cases hr

theorem clusterRFMetRows_norm (s : Splunkd) (hc : Healthchecks) :
    ∀ r ∈ clusterRFMetRows s hc, r.health ≠ "N/A" ∧ r.value ≠ "(none)" := by
  intro r hr
  unfold clusterRFMetRows at hr
  split at hr
  · simp only [List.mem_cons, List.not_mem_nil, or_false] at hr
    subst hr
    split <;> exact reportAppend_norm ..
  · cases hr

theorem clusterPeersRows_norm (s : Splunkd) (hc : Healthchecks) :
    ∀ r ∈ clusterPeersRows s hc, r.health ≠ "N/A" ∧ r.value ≠ "(none)" := by
  intro r hr
  unfold clusterPeersRows at hr
  split at hr
  · simp only [List.mem_cons, List.not_mem_nil, or_false] at hr
    subst hr
    exact reportAppend_norm ..
  · cases hr

theorem clusterSHRows_norm (s : Splunkd) (hc : Healthchecks) :
    ∀ r ∈ clusterSHRows s hc, r.health ≠ "N/A" ∧ r.value ≠ "(none)" := by
  intro r hr
  unfold clusterSHRows at hr
  split at hr
  · simp only [List.mem_cons, List.not_mem_nil, or_false] at hr
    subst hr
    exact reportAppend_norm ..
  · cases hr

theorem clusterRows_norm (s : Splunkd) (hc : Healthchecks) :
    ∀ r ∈ clusterRows s hc, r.health ≠ "N/A" ∧ r.value ≠ "(none)" := by
  intro r hr
  unfold clusterRows at hr
  split at hr
  · simp only [List.mem_append, List.mem_cons, List.not_mem_nil, or_false] at hr
    rcases hr with (((((((((rfl | rfl | rfl) | h1) | h2) | h3) | rfl) | h4) | rfl) | h5) | h6) | h7
    · exact reportAppend_norm ..
    · exact reportAppend_norm ..
    · exact reportAppend_norm ..
    · exact clusterMaintRows_norm s hc r h1
    · exact clusterRRRows_norm s hc r h2
    · exact clusterADSRows_norm s hc r h3
    · exact reportAppend_norm ..
    · exact clusterSFMetRows_norm s hc r h4
    · exact reportAppend_norm ..
    · exact clusterRFMetRows_norm s hc r h5
    · exact clusterPeersRows_norm s hc r h6
    · exact clusterSHRows_norm s hc r h7
  · cases hr

theorem shcRRRows_norm (s : Splunkd) (hc : Healthchecks) :
    ∀ r ∈ shcRRRows s hc, r.health ≠ "N/A" ∧ r.value ≠ "(none)" := by
  intro r hr
  unfold shcRRRows at hr
  split at hr
  · simp only [List.mem_cons, List.not_mem_nil, or_false] at hr
    subst hr
    split <;> exact reportAppend_norm ..
  · cases hr

theorem shcSRRows_norm (s : Splunkd) (hc : Healthchecks) :
    ∀ r ∈ shcSRRows s hc, r.health ≠ "N/A" ∧ r.value ≠ "(none)" := by
  intro r hr
  unfold shcSRRows at hr
  split at hr
  · simp only [List.mem_cons, List.not_mem_nil, or_false] at hr
    subst hr
    split <;> exact reportAppend_norm ..
  · cases hr

theorem shcMPRows_norm (s : Splunkd) (hc : Healthchecks) :
    ∀ r ∈ shcMPRows s hc, r.health ≠ "N/A" ∧ r.value ≠ "(none)" := by
  intro r hr
  unfold shcMPRows at hr
  split at hr
  · simp only [List.mem_cons, List.not_mem_nil, or_false] at hr
    subst hr
    split <;> exact reportAppend_norm ..
  · cases hr

theorem shclusterRows_norm (s : Splunkd) (hc : Healthchecks) :
    ∀ r ∈ shclusterRows s hc, r.health ≠ "N/A" ∧ r.value ≠ "(none)" := by
  intro r hr
  unfold shclusterRows at hr
  split at hr
  · simp only [List.mem_append, List.mem_cons, List.not_mem_nil, or_false] at hr
    rcases hr with (((rfl | rfl) | h1) | h2) | h3
    · exact reportAppend_norm ..
    · exact reportAppend_norm ..
    · exact shcRRRows_norm s hc r h1
    · exact shcSRRows_norm s hc r h2
    · exact shcMPRows_norm s hc r h3
  · cases hr

theorem countsRows_norm (s : Splunkd) :
    ∀ r ∈ countsRows s, r.health ≠ "N/A" ∧ r.value ≠ "(none)" := by
  intro r hr
  simp only [countsRows, List.mem_cons, List.not_mem_nil, or_false] at hr
  rcases hr with rfl | rfl | rfl <;> exact reportAppend_norm ..

/-- Decomposition of a successful `reportBuilder` run into its section
outputs (used by most universally quantified report theorems). -/
theorem reportBuilder_ok_iff (s : Splunkd) (hc : Healthchecks) (now : Int) (rows : List Row) :
    reportBuilder s hc now = Except.ok rows ↔
      ∃ ver disk, versionRows s hc = Except.ok ver ∧ diskRows s hc = Except.ok disk ∧
        rows =
          serverRows s ++ ver ++ uptimeRows s hc now ++ httpSslRows s hc
          ++ messagesRows s hc ++ splunkdHealthRows s ++ featuresRows s
          ++ cpuCoresRows s hc ++ ramRows s hc ++ cpuUsageRows s hc
          ++ memUsageRows s hc ++ swapUsageRows s hc ++ disk ++ portsRows s
          ++ adjacencyRows s ++ clusterRows s hc ++ shclusterRows s hc
          ++ countsRows s := by
  constructor
  · intro h
    unfold reportBuilder at h
    cases hv : versionRows s hc with
    | error e => rw [hv] at h; cases h
    | ok ver =>
      rw [hv] at h
      cases hd : diskRows s hc with
      | error e => rw [hd] at h; cases h
      | ok disk =>
        rw [hd] at h
        injection h with h
        exact ⟨ver, disk, rfl, rfl, h.symm⟩
  · rintro ⟨ver, disk, hv, hd, rfl⟩
    unfold reportBuilder
    rw [hv, hd]
-- C10

/-- C10: every row appended to the report is normalized by `report_append`
before storage — a computed health of `"N/A"` and a computed value of
`"(none)"` are both stored as the empty string — so no row of any
successfully built report has health literally `"N/A"` or value literally
`"(none)"`. -/
theorem report_rows_normalized (s : Splunkd) (hc : Healthchecks) (now : Int)
    (rows : List Row) (h : reportBuilder s hc now = Except.ok rows) :
    ∀ r ∈ rows, r.health ≠ "N/A" ∧ r.value ≠ "(none)" := by
  obtain ⟨ver, disk, hv, hd, rfl⟩ := (reportBuilder_ok_iff s hc now rows).mp h
  intro r hr
  simp only [List.mem_append] at hr
  rcases hr with
    ((((((((((((((((h1 | h2) | h3) | h4) | h5) | h6) | h7) | h8) | h9) | h10) | h11) | h12)
      | h13) | h14) | h15) | h16) | h17) | h18
  · exact serverRows_norm s r h1
  · exact versionRows_norm s hc ver hv r h2
  · exact uptimeRows_norm s hc now r h3
  · exact httpSslRows_norm s hc r h4
  · exact messagesRows_norm s hc r h5
  · exact splunkdHealthRows_norm s r h6
  · exact featuresRows_norm s r h7
  · exact cpuCoresRows_norm s hc r h8
  · exact ramRows_norm s hc r h9
  · exact usageRows_norm _ _ _ _ r h10
  · exact usageRows_norm _ _ _ _ r h11
  · exact usageRows_norm _ _ _ _ r h12
  · exact diskRows_norm s hc disk hd r h13
  · exact portsRows_norm s r h14
  · exact adjacencyRows_norm s r h15
  · exact clusterRows_norm s hc r h16
  · exact shclusterRows_norm s hc r h17
  · exact countsRows_norm s r h18

/-- Witness for C10 at a freshly initialized snapshot under the default
config with every check disabled. -/
theorem report_rows_normalized_witness :
    reportBuilder splunkdInit hcAllOff 0 = Except.ok (okRowsOf splunkdInit hcAllOff 0) ∧
      (okRowsOf splunkdInit hcAllOff 0).all
        (fun r => !(r.health == "N/A") && !(r.value == "(none)")) = true := by
  refine ⟨by decide, ?_⟩
  rw [List.all_eq_true]
  intro r hr
  have h := report_rows_normalized splunkdInit hcAllOff 0 _ (by decide) r hr
  simp only [Bool.and_eq_true, Bool.not_eq_true', beq_eq_false_iff_ne]
  exact h

-- C2

/-- C2 counterexample: with roles containing both `cluster_master` and
`indexer`, the classifier returns `Indexer (Standalone)` — the `indexer`
rule is checked before the `cluster_master` rule — so the claimed result
`ClusterMaster` is wrong at this input. -/
theorem primary_role_cm_indexer_counterexample :
    primaryRoleGuess ["cluster_master", "indexer"] "(unknown)" = "Indexer (Standalone)" ∧
      primaryRoleGuess ["cluster_master", "indexer"] "(unknown)" ≠ "Cluster Master" := by
  constructor
  · decide
  · decide

/-- C2 (amended): the Role Classifier is a deterministic first-match-wins
evaluation of the fixed ordered rule list; for every input whose roles
contain both `cluster_master` and `indexer` and none of the three tags of
the earlier rules (`universal_forwarder`, `management_console`,
`cluster_slave`), the primary role is `Indexer (Standalone)` — `indexer`
(rule 4) precedes `cluster_master` (rule 8), regardless of mode. -/
theorem primary_role_indexer_beats_cluster_master (roles : List String) (mode : String)
    (h1 : "indexer" ∈ roles) (h2 : "cluster_master" ∈ roles)
    (h3 : "universal_forwarder" ∉ roles) (h4 : "management_console" ∉ roles)
    (h5 : "cluster_slave" ∉ roles) :
    primaryRoleGuess roles mode = "Indexer (Standalone)" := by
  unfold primaryRoleGuess
  rw [if_neg h3, if_neg h4, if_neg h5, if_pos h1]

/-- Witness for the amended C2 theorem at the concrete roles list of the
spec's scenario. -/
theorem primary_role_indexer_beats_cluster_master_witness :
    ("indexer" ∈ ["cluster_master", "indexer"]) ∧
      primaryRoleGuess ["cluster_master", "indexer"] "(unknown)" = "Indexer (Standalone)" :=
  ⟨by decide,
   primary_role_indexer_beats_cluster_master ["cluster_master", "indexer"] "(unknown)"
     (by decide) (by decide) (by decide) (by decide) (by decide)⟩
-- C4

/-- A config enabling only the three resource-usage checks, at the spec
scenario thresholds (caution 80, warning 90). -/
def hcUsageOnly : Healthchecks :=
  { hcAllOff with
    cpu_usage_caution := 80
    cpu_usage_warning := 90
    mem_usage_caution := 80
    mem_usage_warning := 90
    swap_usage_caution := 80
    swap_usage_warning := 90 }

theorem usageRows_eq (label : String) (v warn caut : Int)
    (hg : (iTruthy warn || iTruthy caut) = true) (hv : iTruthy v = true) :
    usageRows label v warn caut =
      [reportAppend "Resources" label
        (if v ≥ warn then "Warning" else if v ≥ caut then "Caution" else "OK")
        (toString v ++ "%")] := by
  simp [usageRows, hg, hv]

/-- C4 counterexample: a snapshot whose `cpu_usage` is `0` — below the
caution threshold `80`, so the claim demands health `OK` — is reported
with health `Unknown`, value `"?"`: the code tests Python truthiness of
the metric, conflating the legitimate value `0` with "absent". -/
theorem usage_zero_counterexample :
    findRow (okRowsOf splunkdInit hcUsageOnly 0) "Resources" "CPU Usage"
        = some ⟨"Resources", "CPU Usage", "Unknown", "?"⟩ ∧
      reportBuilder splunkdInit hcUsageOnly 0 = Except.ok (okRowsOf splunkdInit hcUsageOnly 0) := by
  constructor
  · decide
  · decide

/-- C4 (amended): for each resource-usage metric (cpu, mem, swap) with
both thresholds enabled, ordered `caution ≤ warning`, and a nonzero metric
value, the report contains the metric row with health `Warning` when the
value is `≥` the warning threshold, `Caution` when it is in
`[caution, warning)`, and `OK` when it is below the caution threshold;
a zero value is instead treated as absent (health `Unknown`, value `"?"`). -/
theorem usage_threshold_directions (s : Splunkd) (hc : Healthchecks) (now : Int)
    (rows : List Row) (h : reportBuilder s hc now = Except.ok rows) :
    (iTruthy hc.cpu_usage_warning = true → iTruthy hc.cpu_usage_caution = true →
      hc.cpu_usage_caution ≤ hc.cpu_usage_warning → iTruthy s.cpu_usage = true →
      ((s.cpu_usage ≥ hc.cpu_usage_warning →
        reportAppend "Resources" "CPU Usage" "Warning" (toString s.cpu_usage ++ "%") ∈ rows) ∧
       (s.cpu_usage ≥ hc.cpu_usage_caution → s.cpu_usage < hc.cpu_usage_warning →
        reportAppend "Resources" "CPU Usage" "Caution" (toString s.cpu_usage ++ "%") ∈ rows) ∧
       (s.cpu_usage < hc.cpu_usage_caution →
        reportAppend "Resources" "CPU Usage" "OK" (toString s.cpu_usage ++ "%") ∈ rows))) ∧
    (iTruthy hc.mem_usage_warning = true → iTruthy hc.mem_usage_caution = true →
      hc.mem_usage_caution ≤ hc.mem_usage_warning → iTruthy s.mem_usage = true →
      ((s.mem_usage ≥ hc.mem_usage_warning →
        reportAppend "Resources" "RAM Usage" "Warning" (toString s.mem_usage ++ "%") ∈ rows) ∧
       (s.mem_usage ≥ hc.mem_usage_caution → s.mem_usage < hc.mem_usage_warning →
        reportAppend "Resources" "RAM Usage" "Caution" (toString s.mem_usage ++ "%") ∈ rows) ∧
       (s.mem_usage < hc.mem_usage_caution →
        reportAppend "Resources" "RAM Usage" "OK" (toString s.mem_usage ++ "%") ∈ rows))) ∧
    (iTruthy hc.swap_usage_warning = true → iTruthy hc.swap_usage_caution = true →
      hc.swap_usage_caution ≤ hc.swap_usage_warning → iTruthy s.swap_usage = true →
      ((s.swap_usage ≥ hc.swap_usage_warning →
        reportAppend "Resources" "Swap Usage" "Warning" (toString s.swap_usage ++ "%") ∈ rows) ∧
       (s.swap_usage ≥ hc.swap_usage_caution → s.swap_usage < hc.swap_usage_warning →
        reportAppend "Resources" "Swap Usage" "Caution" (toString s.swap_usage ++ "%") ∈ rows) ∧
       (s.swap_usage < hc.swap_usage_caution →
        reportAppend "Resources" "Swap Usage" "OK" (toString s.swap_usage ++ "%") ∈ rows))) := by
  obtain ⟨ver, disk, hv, hd, rfl⟩ := (reportBuilder_ok_iff s hc now rows).mp h
  have hcpu : ∀ r ∈ cpuUsageRows s hc,
      r ∈ serverRows s ++ ver ++ uptimeRows s hc now ++ httpSslRows s hc
        ++ messagesRows s hc ++ splunkdHealthRows s ++ featuresRows s
        ++ cpuCoresRows s hc ++ ramRows s hc ++ cpuUsageRows s hc
        ++ memUsageRows s hc ++ swapUsageRows s hc ++ disk ++ portsRows s
        ++ adjacencyRows s ++ clusterRows s hc ++ shclusterRows s hc
        ++ countsRows s := by
    intro r hr; simp only [List.mem_append]; tauto
  have hmem : ∀ r ∈ memUsageRows s hc,
      r ∈ serverRows s ++ ver ++ uptimeRows s hc now ++ httpSslRows s hc
        ++ messagesRows s hc ++ splunkdHealthRows s ++ featuresRows s
        ++ cpuCoresRows s hc ++ ramRows s hc ++ cpuUsageRows s hc
        ++ memUsageRows s hc ++ swapUsageRows s hc ++ disk ++ portsRows s
        ++ adjacencyRows s ++ clusterRows s hc ++ shclusterRows s hc
        ++ countsRows s := by
    intro r hr; simp only [List.mem_append]; tauto
  have hswap : ∀ r ∈ swapUsageRows s hc,
      r ∈ serverRows s ++ ver ++ uptimeRows s hc now ++ httpSslRows s hc
        ++ messagesRows s hc ++ splunkdHealthRows s ++ featuresRows s
        ++ cpuCoresRows s hc ++ ramRows s hc ++ cpuUsageRows s hc
        ++ memUsageRows s hc ++ swapUsageRows s hc ++ disk ++ portsRows s
        ++ adjacencyRows s ++ clusterRows s hc ++ shclusterRows s hc
        ++ countsRows s := by
    intro r hr; simp only [List.mem_append]; tauto
  refine ⟨?_, ?_, ?_⟩
  · intro hw hca hord hnz
    have heq := usageRows_eq "CPU Usage" s.cpu_usage hc.cpu_usage_warning hc.cpu_usage_caution
      (by simp [hw]) hnz
    refine ⟨?_, ?_, ?_⟩
    · intro hge
      apply hcpu
      unfold cpuUsageRows
      rw [heq, if_pos hge]
      exact List.mem_singleton.mpr rfl
    · intro hge hlt
      apply hcpu
      unfold cpuUsageRows
      rw [heq, if_neg (by omega), if_pos hge]
      exact List.mem_singleton.mpr rfl
    · intro hlt
      apply hcpu
      unfold cpuUsageRows
      rw [heq, if_neg (by omega), if_neg (by omega)]
      exact List.mem_singleton.mpr rfl
  · intro hw hca hord hnz
    have heq := usageRows_eq "RAM Usage" s.mem_usage hc.mem_usage_warning hc.mem_usage_caution
      (by simp [hw]) hnz
    refine ⟨?_, ?_, ?_⟩
    · intro hge
      apply hmem
      unfold memUsageRows
      rw [heq, if_pos hge]
      exact List.mem_singleton.mpr rfl
    · intro hge hlt
      apply hmem
      unfold memUsageRows
      rw [heq, if_neg (by omega), if_pos hge]
      exact List.mem_singleton.mpr rfl
    · intro hlt
      apply hmem
      unfold memUsageRows
      rw [heq, if_neg (by omega), if_neg (by omega)]
      exact List.mem_singleton.mpr rfl
  · intro hw hca hord hnz
    have heq := usageRows_eq "Swap Usage" s.swap_usage hc.swap_usage_warning hc.swap_usage_caution
      (by simp [hw]) hnz
    refine ⟨?_, ?_, ?_⟩
    · intro hge
      apply hswap
      unfold swapUsageRows
      rw [heq, if_pos hge]
      exact List.mem_singleton.mpr rfl
    · intro hge hlt
      apply hswap
      unfold swapUsageRows
      rw [heq, if_neg (by omega), if_pos hge]
      exact List.mem_singleton.mpr rfl
    · intro hlt
      apply hswap
      unfold swapUsageRows
      rw [heq, if_neg (by omega), if_neg (by omega)]
      exact List.mem_singleton.mpr rfl

/-- Witness for the amended C4 theorem: the spec's end-to-end scenario
`cpu_usage=95`, caution `80`, warning `90` yields the report row
`{Resources, CPU Usage, Warning, "95%"}`. -/
theorem usage_threshold_directions_witness :
    reportBuilder { splunkdInit with cpu_usage := 95 } hcUsageOnly 0
        = Except.ok (okRowsOf { splunkdInit with cpu_usage := 95 } hcUsageOnly 0) ∧
      (⟨"Resources", "CPU Usage", "Warning", "95%"⟩ : Row)
        ∈ okRowsOf { splunkdInit with cpu_usage := 95 } hcUsageOnly 0 := by
  refine ⟨by decide, ?_⟩
  have h := (usage_threshold_directions { splunkdInit with cpu_usage := 95 } hcUsageOnly 0
    (okRowsOf { splunkdInit with cpu_usage := 95 } hcUsageOnly 0) (by decide)).1
    (by decide) (by decide) (by decide) (by decide)
  exact h.1 (by decide)
-- C6

/-- C6 failing input: when HTTP SSL is enabled (`http_ssl = True`) and the
check is enabled, the emitted row's health is `Unknown` with value `"?"`
instead of the `OK`/`"True"` the claim (and the check's own dead inner
`else` branch) prescribes; the SSL-disabled bad state still yields
`Caution`, as the claim states for the bad direction. -/
theorem http_ssl_enabled_unknown :
    findRow (okRowsOf { splunkdInit with http_ssl := some true }
        { hcAllOff with http_ssl_caution := true } 0) "Server" "HTTP SSL"
        = some ⟨"Server", "HTTP SSL", "Unknown", "?"⟩ ∧
      reportBuilder { splunkdInit with http_ssl := some true }
        { hcAllOff with http_ssl_caution := true } 0
        = Except.ok (okRowsOf { splunkdInit with http_ssl := some true }
            { hcAllOff with http_ssl_caution := true } 0) ∧
      findRow (okRowsOf { splunkdInit with http_ssl := some false }
        { hcAllOff with http_ssl_caution := true } 0) "Server" "HTTP SSL"
        = some ⟨"Server", "HTTP SSL", "Caution", "False"⟩ := by
  refine ⟨by decide, by decide, by decide⟩

-- C1

/-- Boolean success test of an embedded fallible computation. -/
def exceptIsOk {ε α : Type} : Except ε α → Bool
  | Except.ok _ => true
  | Except.error _ => false

/-- A snapshot with a parseable version string and a single well-formed
disk mount (the shape `get_services_server_status` produces). -/
def splunkdWellFormed : Splunkd :=
  { splunkdInit with
      version := "7.2.1",
      disk_partitions := [⟨"/", "100.00 GB", "42.0%"⟩] }

/-- C1 counterexample: on a freshly initialized snapshot (whose version
string is the truthy sentinel `"(unknown)"`) under the default config, the
version check's `self.version.split('.')[1]` raises `IndexError` and the
whole `report_builder` call aborts instead of downgrading the Version row
to Unknown. -/
theorem report_builder_raises :
    reportBuilder splunkdInit hcDefault 0 = Except.error PyErr.indexError := by
  decide

theorem diskFold_ok (hc : Healthchecks) (l : List Mount)
    (hp : ∀ m ∈ l, (parseFloatPy m.used.data.dropLast).isSome = true) :
    ∀ health mounts, ∃ p, diskFold hc l health mounts = Except.ok p := by
  induction l with
  | nil => intro health mounts; exact ⟨_, rfl⟩
  | cons m rest ih =>
    intro health mounts
    have hm := hp m (List.mem_cons_self ..)
    cases hpm : parseFloatPy m.used.data.dropLast with
    | none => rw [hpm] at hm; cases hm
    | some pu =>
      unfold diskFold
      rw [hpm]
      exact ih (fun m' hm' => hp m' (List.mem_cons_of_mem _ hm')) _ _

/-- C1 (amended): `report_builder` contains no local exception handling;
it returns a report if and only if every fallible field evaluation
succeeds — the version string must split into a parseable major.minor pair
whenever the version check is enabled and the version is non-empty, and
every mount's `used` field must parse whenever the disk check is enabled —
and otherwise the exception escapes and aborts the whole report (see the
counterexample); containment to a per-instance failure happens only in the
callers. -/
theorem report_builder_total (s : Splunkd) (hc : Healthchecks) (now : Int)
    (hver : (hc.version_warning.truthy || hc.version_caution.truthy) = true → s.version ≠ "" →
      exceptIsOk (versionMinor s.version) = true)
    (hdisk : (hc.diskpartition_usage_warning.truthy || hc.diskpartition_usage_caution.truthy) = true →
      ∀ m ∈ s.disk_partitions, (parseFloatPy m.used.data.dropLast).isSome = true) :
    ∃ rows, reportBuilder s hc now = Except.ok rows := by
  have hv : ∃ ver, versionRows s hc = Except.ok ver := by
    unfold versionRows
    split
    · rename_i hg
      split
      · rename_i hvne
        have hok := hver hg hvne
        cases hvm : versionMinor s.version with
        | error e => rw [hvm] at hok; simp [exceptIsOk] at hok
        | ok mv => exact ⟨_, rfl⟩
      · exact ⟨_, rfl⟩
    · exact ⟨_, rfl⟩
  have hd : ∃ disk, diskRows s hc = Except.ok disk := by
    unfold diskRows
    split
    · rename_i hg
      split
      · exact ⟨_, rfl⟩
      · obtain ⟨p, hp⟩ := diskFold_ok hc s.disk_partitions (hdisk hg) "OK" []
        rw [hp]
        exact ⟨_, rfl⟩
    · exact ⟨_, rfl⟩
  obtain ⟨ver, hver2⟩ := hv
  obtain ⟨disk, hd2⟩ := hd
  exact ⟨_, (reportBuilder_ok_iff s hc now _).mpr ⟨ver, disk, hver2, hd2, rfl⟩⟩

/-- Witness for the amended C1 theorem: a parseable version and one
well-formed disk mount yield a successful report under the default
config. -/
theorem report_builder_total_witness :
    exceptIsOk (versionMinor splunkdWellFormed.version) = true ∧
      exceptIsOk (reportBuilder splunkdWellFormed hcDefault 0) = true := by
  refine ⟨by decide, ?_⟩
  obtain ⟨rows, hr⟩ := report_builder_total splunkdWellFormed hcDefault 0
    (fun _ _ => by decide) (fun _ => by decide)
  rw [hr]
  rfl
-- C5

/-- Severity level of a report health annotation, `OK < Caution < Warning`. -/
inductive Sev where
  | ok
  | caution
  | warning
  deriving DecidableEq, Repr

/-- Numeric rank of a severity (for the maximum-severity reading). -/
def sevRank : Sev → Nat
  | Sev.ok => 0
  | Sev.caution => 1
  | Sev.warning => 2

/-- Maximum of two severities under `Warning > Caution > OK`. -/
def sevMax : Sev → Sev → Sev
  | Sev.warning, _ => Sev.warning
  | Sev.caution, Sev.warning => Sev.warning
  | Sev.caution, _ => Sev.caution
  | Sev.ok, b => b

/-- Health string attached to a severity. -/
def sevLabel : Sev → String
  | Sev.ok => "OK"
  | Sev.caution => "Caution"
  | Sev.warning => "Warning"

/-- Severity of one disk mount with parsed usage `pu` against the
configured thresholds: `Warning` when `pu >= warning`, else `Caution`
when `pu >= caution`, else `OK`. -/
def mountSev (hc : Healthchecks) (pu : Dec) : Sev :=
  if Dec.le hc.diskpartition_usage_warning pu then Sev.warning
  else if Dec.le hc.diskpartition_usage_caution pu then Sev.caution
  else Sev.ok

/-- The value-string fragment the Disk Usage check emits for one mount. -/
def mountValueStr (m : Mount) (pu : Dec) : String :=
  squote ++ m.name ++ squote ++ " " ++ toString pu.trunc ++ "% of " ++ m.total

theorem sevMax_rank (a b : Sev) : sevRank (sevMax a b) = max (sevRank a) (sevRank b) := by
  cases a <;> cases b <;> rfl

theorem diskStep_eq (hc : Healthchecks) (a : Sev) (pu : Dec) :
    (if Dec.le hc.diskpartition_usage_warning pu
        && (sevLabel a = "OK" || sevLabel a = "Caution") then "Warning"
     else if Dec.le hc.diskpartition_usage_caution pu && (sevLabel a = "OK") then "Caution"
     else sevLabel a) = sevLabel (sevMax a (mountSev hc pu)) := by
  cases a <;>
    cases hw : Dec.le hc.diskpartition_usage_warning pu <;>
    cases hcx : Dec.le hc.diskpartition_usage_caution pu <;>
    simp [sevLabel, sevMax, mountSev, hw, hcx]

theorem diskFold_spec (hc : Healthchecks) (l : List Mount) (pv : Mount → Dec)
    (hp : ∀ m ∈ l, parseFloatPy m.used.data.dropLast = some (pv m)) :
    ∀ (a : Sev) (mounts : List String),
      diskFold hc l (sevLabel a) mounts =
        Except.ok
          (sevLabel (l.foldl (fun x m => sevMax x (mountSev hc (pv m))) a),
           mounts ++ l.map (fun m => mountValueStr m (pv m))) := by
  induction l with
  | nil => intro a mounts; simp [diskFold]
  | cons m rest ih =>
    intro a mounts
    have hm := hp m (List.mem_cons_self ..)
    unfold diskFold
    simp only [hm]
    rw [diskStep_eq hc a (pv m)]
    rw [ih (fun m' hm' => hp m' (List.mem_cons_of_mem _ hm')) (sevMax a (mountSev hc (pv m)))]
    simp [mountValueStr]

/-- C5: with the disk-usage check enabled and a non-empty partition list
whose `used` strings all parse (`pv` gives the parsed percentages), the
report contains a Disk Usage row whose health is the maximum severity over
all mounts — each mount judged `Warning`/`Caution`/`OK` against the
warning/caution thresholds — and whose value enumerates every mount's
name, truncated utilization percentage and total capacity, regardless of
the mount's individual severity. -/
theorem disk_usage_aggregate (s : Splunkd) (hc : Healthchecks) (now : Int)
    (rows : List Row) (h : reportBuilder s hc now = Except.ok rows)
    (hg : (hc.diskpartition_usage_warning.truthy || hc.diskpartition_usage_caution.truthy) = true)
    (hne : s.disk_partitions.isEmpty = false)
    (pv : Mount → Dec)
    (hp : ∀ m ∈ s.disk_partitions, parseFloatPy m.used.data.dropLast = some (pv m)) :
    reportAppend "Resources" "Disk Usage"
        (sevLabel ((s.disk_partitions.map (fun m => mountSev hc (pv m))).foldl sevMax Sev.ok))
        (String.intercalate ", " (s.disk_partitions.map (fun m => mountValueStr m (pv m))))
      ∈ rows := by
  obtain ⟨ver, disk, hv, hd, rfl⟩ := (reportBuilder_ok_iff s hc now rows).mp h
  have hfold : diskFold hc s.disk_partitions "OK" [] =
      Except.ok
        (sevLabel (s.disk_partitions.foldl (fun x m => sevMax x (mountSev hc (pv m))) Sev.ok),
         [] ++ s.disk_partitions.map (fun m => mountValueStr m (pv m))) :=
    diskFold_spec hc s.disk_partitions pv hp Sev.ok []
  have hdisk : diskRows s hc =
      Except.ok [reportAppend "Resources" "Disk Usage"
        (sevLabel (s.disk_partitions.foldl (fun x m => sevMax x (mountSev hc (pv m))) Sev.ok))
        (String.intercalate ", " (s.disk_partitions.map (fun m => mountValueStr m (pv m))))] := by
    unfold diskRows
    rw [if_pos hg, if_neg (by simp [hne]), hfold]
    have hmapne : (s.disk_partitions.map (fun m => mountValueStr m (pv m))).isEmpty = false := by
      cases hl : s.disk_partitions with
      | nil => rw [hl] at hne; simp at hne
      | cons x xs => simp [hl]
    simp [hmapne]
  rw [hd] at hdisk
  injection hdisk with hdisk
  subst hdisk
  rw [List.foldl_map]
  simp only [List.mem_append]
  tauto

/-- A config enabling only the disk-usage check (caution 80, warning 90). -/
def hcDiskOnly : Healthchecks :=
  { hcAllOff with
      diskpartition_usage_caution := ⟨80, 0⟩,
      diskpartition_usage_warning := ⟨90, 0⟩ }

/-- A snapshot with two disk mounts, one over the warning threshold and
one far below the caution threshold. -/
def splunkdTwoMounts : Splunkd :=
  { splunkdInit with
      disk_partitions := [⟨"/", "100.00 GB", "95.0%"⟩, ⟨"/opt", "50.00 GB", "10.0%"⟩] }

/-- Parsed usage percentages of the two mounts of `splunkdTwoMounts`. -/
def diskPv (m : Mount) : Dec := if m.name = "/" then ⟨950, 1⟩ else ⟨100, 1⟩

/-- Witness for C5: two mounts, one at 95% (Warning) and one at 10% (OK),
aggregate to health Warning while the value lists both mounts. -/
theorem disk_usage_aggregate_witness :
    reportBuilder splunkdTwoMounts hcDiskOnly 0
        = Except.ok (okRowsOf splunkdTwoMounts hcDiskOnly 0) ∧
      reportAppend "Resources" "Disk Usage"
          (sevLabel ((splunkdTwoMounts.disk_partitions.map
            (fun m => mountSev hcDiskOnly (diskPv m))).foldl sevMax Sev.ok))
          (String.intercalate ", " (splunkdTwoMounts.disk_partitions.map
            (fun m => mountValueStr m (diskPv m))))
        ∈ okRowsOf splunkdTwoMounts hcDiskOnly 0 :=
  ⟨by decide,
   disk_usage_aggregate splunkdTwoMounts hcDiskOnly 0 _ (by decide) (by decide) (by decide)
     diskPv (by decide)⟩
-- C3

/-- The twenty healthcheck-gated report rows (every conditional row whose
emission is controlled by a `HealthcheckConfig` threshold). -/
inductive Check where
  | version
  | uptime
  | httpSsl
  | messages
  | cpuCores
  | memCapacity
  | cpuUsage
  | memUsage
  | swapUsage
  | diskUsage
  | clMaint
  | clRR
  | clADS
  | clSFMet
  | clRFMet
  | clPeers
  | clSH
  | shcRR
  | shcSR
  | shcMP
  deriving DecidableEq, Fintype, Repr

/-- The (category, name) pair of the row each healthcheck emits. -/
def checkPair : Check → String × String
  | Check.version => ("Server", "Version")
  | Check.uptime => ("Server", "Uptime")
  | Check.httpSsl => ("Server", "HTTP SSL")
  | Check.messages => ("Server", "Messages")
  | Check.cpuCores => ("Resources", "CPU Cores")
  | Check.memCapacity => ("Resources", "RAM Size")
  | Check.cpuUsage => ("Resources", "CPU Usage")
  | Check.memUsage => ("Resources", "RAM Usage")
  | Check.swapUsage => ("Resources", "Swap Usage")
  | Check.diskUsage => ("Resources", "Disk Usage")
  | Check.clMaint => ("Cluster", "IDXC Maintenance Mode")
  | Check.clRR => ("Cluster", "IDXC Rolling Restart")
  | Check.clADS => ("Cluster", "IDXC All Data Searchable")
  | Check.clSFMet => ("Cluster", "IDXC Search Factor Met")
  | Check.clRFMet => ("Cluster", "IDXC Rep Factor Met")
  | Check.clPeers => ("Cluster", "IDXC Searchable Peers")
  | Check.clSH => ("Cluster", "IDXC Connected Search Heads")
  | Check.shcRR => ("Cluster", "SHC Rolling Restart")
  | Check.shcSR => ("Cluster", "SHC Service Ready")
  | Check.shcMP => ("Cluster", "SHC Minimum Peers Joined")

/-- Python truthiness of the configured threshold(s) of each check: the
exact gate `report_builder` tests before emitting the row. -/
def checkEnabled : Check → Healthchecks → Bool
  | Check.version, hc => hc.version_warning.truthy || hc.version_caution.truthy
  | Check.uptime, hc => iTruthy hc.uptime_warning || iTruthy hc.uptime_caution
  | Check.httpSsl, hc => hc.http_ssl_caution
  | Check.messages, hc => hc.messages_caution
  | Check.cpuCores, hc => iTruthy hc.cpu_cores_caution
  | Check.memCapacity, hc => iTruthy hc.mem_capacity_caution
  | Check.cpuUsage, hc => iTruthy hc.cpu_usage_warning || iTruthy hc.cpu_usage_caution
  | Check.memUsage, hc => iTruthy hc.mem_usage_warning || iTruthy hc.mem_usage_caution
  | Check.swapUsage, hc => iTruthy hc.swap_usage_warning || iTruthy hc.swap_usage_caution
  | Check.diskUsage, hc =>
    hc.diskpartition_usage_warning.truthy || hc.diskpartition_usage_caution.truthy
  | Check.clMaint, hc => hc.cluster_maintenance_caution
  | Check.clRR, hc => hc.cluster_rollingrestart_caution
  | Check.clADS, hc => hc.cluster_alldatasearchable_warning
  | Check.clSFMet, hc => hc.cluster_searchfactor_caution
  | Check.clRFMet, hc => hc.cluster_replicationfactor_caution
  | Check.clPeers, hc => hc.cluster_peersnotsearchable_warning
  | Check.clSH, hc => hc.cluster_searchheadsnotconnected_warning
  | Check.shcRR, hc => hc.shcluster_rollingrestart_caution
  | Check.shcSR, hc => hc.shcluster_serviceready_warning
  | Check.shcMP, hc => hc.shcluster_minpeersjoined_warning

/-- The (category, name) pairs of the rows that are emitted independently
of any healthcheck threshold. -/
def uncondPairs : List (String × String) :=
  [("Server", "Address"), ("Server", "Server Name"), ("Server", "GUID"),
   ("Server", "Type"), ("Server", "Roles"), ("Server", "Primary Role Guess"),
   ("Server", "OS"), ("Server", "Web Enabled"),
   ("Server", "Splunkd Health"), ("Server", "Splunkd Health (by feature)"),
   ("Ports", "Management Port"), ("Ports", "Web Port"), ("Ports", "Receiving Ports"),
   ("Ports", "TCP Input Ports"), ("Ports", "UDP Input Ports"),
   ("Ports", "Replication Port"), ("Ports", "KV Store Port"),
   ("Adjacencies", "Deployment Server"), ("Adjacencies", "Deployment Clients"),
   ("Adjacencies", "IDXC Master Node"), ("Adjacencies", "IDXC Peer Nodes"),
   ("Adjacencies", "IDXC Search Heads"), ("Adjacencies", "SHC Deployer"),
   ("Adjacencies", "SHC Members"), ("Adjacencies", "Search Peers"),
   ("Adjacencies", "Receivers (Forward Servers)"),
   ("Adjacencies", "Forwarders (Cooked TCP Connections)"),
   ("Adjacencies", "License Master"), ("Adjacencies", "License Slaves"),
   ("Cluster", "IDXC Label"), ("Cluster", "IDXC Mode"), ("Cluster", "IDXC Site"),
   ("Cluster", "IDXC Search Factor"), ("Cluster", "IDXC Rep Factor"),
   ("Cluster", "SHC Label"), ("Cluster", "SHC Rep Factor"),
   ("Counts", "Messages"), ("Counts", "Apps"), ("Counts", "Forwarders")]

theorem pair_reportAppend (c n h v : String) :
    ((reportAppend c n h v).category, (reportAppend c n h v).name) = (c, n) := rfl

theorem checkPair_not_uncond : ∀ c : Check, checkPair c ∉ uncondPairs := by decide

theorem checkPair_inj : ∀ c d : Check, checkPair c = checkPair d → c = d := by decide

theorem serverRows_pair (s : Splunkd) :
    ∀ r ∈ serverRows s, (r.category, r.name) ∈ uncondPairs := by
  intro r hr
  simp only [serverRows, List.mem_cons, List.not_mem_nil, or_false] at hr
  rcases hr with rfl | rfl | rfl | rfl | rfl | rfl | rfl | rfl <;>
    (rw [pair_reportAppend]; decide)

theorem versionRows_pair_gate (s : Splunkd) (hc : Healthchecks) (l : List Row)
    (h : versionRows s hc = Except.ok l) :
    ∀ r ∈ l, (r.category, r.name) = checkPair Check.version ∧
      checkEnabled Check.version hc = true := by
  intro r hr
  unfold versionRows at h
  split at h
  · rename_i hg
    split at h
    · cases hvm : versionMinor s.version with
      | error e => rw [hvm] at h; cases h
      | ok mv =>
        rw [hvm] at h
        injection h with h
        subst h
        simp only [List.mem_cons, List.not_mem_nil, or_false] at hr
        subst hr
        exact ⟨rfl, hg⟩
    · injection h with h
      subst h
      simp only [List.mem_cons, List.not_mem_nil, or_false] at hr
      subst hr
      exact ⟨rfl, hg⟩
  · injection h with h
    subst h
    cases hr

theorem uptimeRows_pair_gate (s : Splunkd) (hc : Healthchecks) (now : Int) :
    ∀ r ∈ uptimeRows s hc now, (r.category, r.name) = checkPair Check.uptime ∧
      checkEnabled Check.uptime hc = true := by
  intro r hr
  unfold uptimeRows at hr
  split at hr
  · rename_i hg
    simp only [List.mem_cons, List.not_mem_nil, or_false] at hr
    subst hr
    exact ⟨by split <;> rfl, hg⟩
  · cases hr

theorem httpSslRows_pair_gate (s : Splunkd) (hc : Healthchecks) :
    ∀ r ∈ httpSslRows s hc, (r.category, r.name) = checkPair Check.httpSsl ∧
      checkEnabled Check.httpSsl hc = true := by
  intro r hr
  unfold httpSslRows at hr
  split at hr
  · rename_i hg
    simp only [List.mem_cons, List.not_mem_nil, or_false] at hr
    subst hr
    exact ⟨by split <;> rfl, hg⟩
  · cases hr

theorem messagesRows_pair_gate (s : Splunkd) (hc : Healthchecks) :
    ∀ r ∈ messagesRows s hc, (r.category, r.name) = checkPair Check.messages ∧
      checkEnabled Check.messages hc = true := by
  intro r hr
  unfold messagesRows at hr
  split at hr
  · rename_i hg
    simp only [List.mem_cons, List.not_mem_nil, or_false] at hr
    subst hr
    exact ⟨by split <;> rfl, hg⟩
  · cases hr

theorem splunkdHealthRows_pair (s : Splunkd) :
    ∀ r ∈ splunkdHealthRows s, (r.category, r.name) ∈ uncondPairs := by
  intro r hr
  unfold splunkdHealthRows at hr
  split at hr
  · simp only [List.mem_cons, List.not_mem_nil, or_false] at hr
    subst hr
    split
    · rw [pair_reportAppend]; decide
    · split
      · rw [pair_reportAppend]; decide
      · split <;> (rw [pair_reportAppend]; decide)
  · cases hr

theorem featuresRows_pair (s : Splunkd) :
    ∀ r ∈ featuresRows s, (r.category, r.name) ∈ uncondPairs := by
  intro r hr
  unfold featuresRows at hr
  split at hr
  · cases hr
  · simp only [List.mem_cons, List.not_mem_nil, or_false] at hr
    subst hr
    rw [pair_reportAppend]; decide

theorem cpuCoresRows_pair_gate (s : Splunkd) (hc : Healthchecks) :
    ∀ r ∈ cpuCoresRows s hc, (r.category, r.name) = checkPair Check.cpuCores ∧
      checkEnabled Check.cpuCores hc = true := by
  intro r hr
  unfold cpuCoresRows at hr
  split at hr
  · rename_i hg
    simp only [List.mem_cons, List.not_mem_nil, or_false] at hr
    subst hr
    exact ⟨by split <;> rfl, hg⟩
  · cases hr

theorem ramRows_pair_gate (s : Splunkd) (hc : Healthchecks) :
    ∀ r ∈ ramRows s hc, (r.category, r.name) = checkPair Check.memCapacity ∧
      checkEnabled Check.memCapacity hc = true := by
  intro r hr
  unfold ramRows at hr
  split at hr
  · rename_i hg
    simp only [List.mem_cons, List.not_mem_nil, or_false] at hr
    subst hr
    exact ⟨by split <;> rfl, hg⟩
  · cases hr

theorem usageRows_pair_gate (label : String) (v warn caut : Int) :
    ∀ r ∈ usageRows label v warn caut,
      (r.category, r.name) = ("Resources", label) ∧ (iTruthy warn || iTruthy caut) = true := by
  intro r hr
  unfold usageRows at hr
  split at hr
  · rename_i hg
    simp only [List.mem_cons, List.not_mem_nil, or_false] at hr
    subst hr
    exact ⟨by split <;> rfl, hg⟩
  · cases hr

theorem diskRows_pair_gate (s : Splunkd) (hc : Healthchecks) (l : List Row)
    (h : diskRows s hc = Except.ok l) :
    ∀ r ∈ l, (r.category, r.name) = checkPair Check.diskUsage ∧
      checkEnabled Check.diskUsage hc = true := by
  intro r hr
  unfold diskRows at h
  split at h
  · rename_i hg
    split at h
    · injection h with h
      subst h
      simp only [List.mem_cons, List.not_mem_nil, or_false] at hr
      subst hr
      exact ⟨rfl, hg⟩
    · cases hd : diskFold hc s.disk_partitions "OK" [] with
      | error e => rw [hd] at h; cases h
      | ok p =>
        rw [hd] at h
        injection h with h
        subst h
        simp only [List.mem_cons, List.not_mem_nil, or_false] at hr
        subst hr
        exact ⟨rfl, hg⟩
  · injection h with h
    subst h
    cases hr
theorem portsRows_pair (s : Splunkd) :
    ∀ r ∈ portsRows s, (r.category, r.name) ∈ uncondPairs := by
  intro r hr
  simp only [portsRows, List.mem_cons, List.not_mem_nil, or_false] at hr
  rcases hr with rfl | rfl | rfl | rfl | rfl | rfl | rfl <;>
    (rw [pair_reportAppend]; decide)

theorem adjacencyRows_pair (s : Splunkd) :
    ∀ r ∈ adjacencyRows s, (r.category, r.name) ∈ uncondPairs := by
  intro r hr
  simp only [adjacencyRows, List.mem_cons, List.not_mem_nil, or_false] at hr
  rcases hr with rfl | rfl | rfl | rfl | rfl | rfl | rfl | rfl | rfl | rfl | rfl | rfl <;>
    (rw [pair_reportAppend]; decide)

theorem countsRows_pair (s : Splunkd) :
    ∀ r ∈ countsRows s, (r.category, r.name) ∈ uncondPairs := by
  intro r hr
  simp only [countsRows, List.mem_cons, List.not_mem_nil, or_false] at hr
  rcases hr with rfl | rfl | rfl <;> (rw [pair_reportAppend]; decide)

theorem clusterMaintRows_pair_gate (s : Splunkd) (hc : Healthchecks) :
    ∀ r ∈ clusterMaintRows s hc, (r.category, r.name) = checkPair Check.clMaint ∧
      checkEnabled Check.clMaint hc = true := by
  intro r hr
  unfold clusterMaintRows at hr
  split at hr
  · rename_i hg
    simp only [List.mem_cons, List.not_mem_nil, or_false] at hr
    subst hr
    exact ⟨by split <;> rfl, hg⟩
  · cases hr

theorem clusterRRRows_pair_gate (s : Splunkd) (hc : Healthchecks) :
    ∀ r ∈ clusterRRRows s hc, (r.category, r.name) = checkPair Check.clRR ∧
      checkEnabled Check.clRR hc = true := by
  intro r hr
  unfold clusterRRRows at hr
  split at hr
  · rename_i hg
    simp only [List.mem_cons, List.not_mem_nil, or_false] at hr
    subst hr
    exact ⟨by split <;> rfl, hg⟩
  · cases hr

theorem clusterADSRows_pair_gate (s : Splunkd) (hc : Healthchecks) :
    ∀ r ∈ clusterADSRows s hc, (r.category, r.name) = checkPair Check.clADS ∧
      checkEnabled Check.clADS hc = true := by
  intro r hr
  unfold clusterADSRows at hr
  split at hr
  · rename_i hg
    simp only [List.mem_cons, List.not_mem_nil, or_false] at hr
    subst hr
    exact ⟨by split <;> rfl, hg⟩
  · cases hr

theorem clusterSFMetRows_pair_gate (s : Splunkd) (hc : Healthchecks) :
    ∀ r ∈ clusterSFMetRows s hc, (r.category, r.name) = checkPair Check.clSFMet ∧
      checkEnabled Check.clSFMet hc = true := by
  intro r hr
  unfold clusterSFMetRows at hr
  split at hr
  · rename_i hg
    simp only [List.mem_cons, List.not_mem_nil, or_false] at hr
    subst hr
    exact ⟨by split <;> rfl, hg⟩
  · cases hr

theorem clusterRFMetRows_pair_gate (s : Splunkd) (hc : Healthchecks) :
    ∀ r ∈ clusterRFMetRows s hc, (r.category, r.name) = checkPair Check.clRFMet ∧
      checkEnabled Check.clRFMet hc = true := by
  intro r hr
  unfold clusterRFMetRows at hr
  split at hr
  · rename_i hg
    simp only [List.mem_cons, List.not_mem_nil, or_false] at hr
    subst hr
    exact ⟨by split <;> rfl, hg⟩
  · cases hr

theorem clusterPeersRows_pair_gate (s : Splunkd) (hc : Healthchecks) :
    ∀ r ∈ clusterPeersRows s hc, (r.category, r.name) = checkPair Check.clPeers ∧
      checkEnabled Check.clPeers hc = true := by
  intro r hr
  unfold clusterPeersRows at hr
  split at hr
  · rename_i hg
    simp only [List.mem_cons, List.not_mem_nil, or_false] at hr
    subst hr
    refine ⟨rfl, ?_⟩
    have := (Bool.and_eq_true _ _).mp hg
    exact this.1
  · cases hr

theorem clusterSHRows_pair_gate (s : Splunkd) (hc : Healthchecks) :
    ∀ r ∈ clusterSHRows s hc, (r.category, r.name) = checkPair Check.clSH ∧
      checkEnabled Check.clSH hc = true := by
  intro r hr
  unfold clusterSHRows at hr
  split at hr
  · rename_i hg
    simp only [List.mem_cons, List.not_mem_nil, or_false] at hr
    subst hr
    refine ⟨rfl, ?_⟩
    have := (Bool.and_eq_true _ _).mp hg
    exact this.1
  · cases hr

theorem shcRRRows_pair_gate (s : Splunkd) (hc : Healthchecks) :
    ∀ r ∈ shcRRRows s hc, (r.category, r.name) = checkPair Check.shcRR ∧
      checkEnabled Check.shcRR hc = true := by
  intro r hr
  unfold shcRRRows at hr
  split at hr
  · rename_i hg
    simp only [List.mem_cons, List.not_mem_nil, or_false] at hr
    subst hr
    exact ⟨by split <;> rfl, hg⟩
  · cases hr

theorem shcSRRows_pair_gate (s : Splunkd) (hc : Healthchecks) :
    ∀ r ∈ shcSRRows s hc, (r.category, r.name) = checkPair Check.shcSR ∧
      checkEnabled Check.shcSR hc = true := by
  intro r hr
  unfold shcSRRows at hr
  split at hr
  · rename_i hg
    simp only [List.mem_cons, List.not_mem_nil, or_false] at hr
    subst hr
    exact ⟨by split <;> rfl, hg⟩
  · cases hr

theorem shcMPRows_pair_gate (s : Splunkd) (hc : Healthchecks) :
    ∀ r ∈ shcMPRows s hc, (r.category, r.name) = checkPair Check.shcMP ∧
      checkEnabled Check.shcMP hc = true := by
  intro r hr
  unfold shcMPRows at hr
  split at hr
  · rename_i hg
    simp only [List.mem_cons, List.not_mem_nil, or_false] at hr
    subst hr
    exact ⟨by split <;> rfl, hg⟩
  · cases hr

theorem clusterRows_source (s : Splunkd) (hc : Healthchecks) :
    ∀ r ∈ clusterRows s hc,
      (r.category, r.name) ∈ uncondPairs ∨
        ∃ c, (r.category, r.name) = checkPair c ∧ checkEnabled c hc = true := by
  intro r hr
  unfold clusterRows at hr
  split at hr
  · simp only [List.mem_append, List.mem_cons, List.not_mem_nil, or_false] at hr
    rcases hr with
      (((((((((rfl | rfl | rfl) | h1) | h2) | h3) | rfl) | h4) | rfl) | h5) | h6) | h7
    · left; rw [pair_reportAppend]; decide
    · left; rw [pair_reportAppend]; decide
    · left; rw [pair_reportAppend]; decide
    · exact Or.inr ⟨Check.clMaint, clusterMaintRows_pair_gate s hc r h1⟩
    · exact Or.inr ⟨Check.clRR, clusterRRRows_pair_gate s hc r h2⟩
    · exact Or.inr ⟨Check.clADS, clusterADSRows_pair_gate s hc r h3⟩
    · left; rw [pair_reportAppend]; decide
    · exact Or.inr ⟨Check.clSFMet, clusterSFMetRows_pair_gate s hc r h4⟩
    · left; rw [pair_reportAppend]; decide
    · exact Or.inr ⟨Check.clRFMet, clusterRFMetRows_pair_gate s hc r h5⟩
    · exact Or.inr ⟨Check.clPeers, clusterPeersRows_pair_gate s hc r h6⟩
    · exact Or.inr ⟨Check.clSH, clusterSHRows_pair_gate s hc r h7⟩
  · cases hr

theorem shclusterRows_source (s : Splunkd) (hc : Healthchecks) :
    ∀ r ∈ shclusterRows s hc,
      (r.category, r.name) ∈ uncondPairs ∨
        ∃ c, (r.category, r.name) = checkPair c ∧ checkEnabled c hc = true := by
  intro r hr
  unfold shclusterRows at hr
  split at hr
  · simp only [List.mem_append, List.mem_cons, List.not_mem_nil, or_false] at hr
    rcases hr with (((rfl | rfl) | h1) | h2) | h3
    · left; rw [pair_reportAppend]; decide
    · left; rw [pair_reportAppend]; decide
    · exact Or.inr ⟨Check.shcRR, shcRRRows_pair_gate s hc r h1⟩
    · exact Or.inr ⟨Check.shcSR, shcSRRows_pair_gate s hc r h2⟩
    · exact Or.inr ⟨Check.shcMP, shcMPRows_pair_gate s hc r h3⟩
  · cases hr

/-- Classification of every row of a successful report: its
(category, name) pair either belongs to the unconditional rows or is the
pair of a healthcheck whose gate was enabled. -/
theorem report_row_source (s : Splunkd) (hc : Healthchecks) (now : Int)
    (rows : List Row) (h : reportBuilder s hc now = Except.ok rows) :
    ∀ r ∈ rows,
      (r.category, r.name) ∈ uncondPairs ∨
        ∃ c, (r.category, r.name) = checkPair c ∧ checkEnabled c hc = true := by
  obtain ⟨ver, disk, hv, hd, rfl⟩ := (reportBuilder_ok_iff s hc now rows).mp h
  intro r hr
  simp only [List.mem_append] at hr
  rcases hr with
    ((((((((((((((((h1 | h2) | h3) | h4) | h5) | h6) | h7) | h8) | h9) | h10) | h11) | h12)
      | h13) | h14) | h15) | h16) | h17) | h18
  · exact Or.inl (serverRows_pair s r h1)
  · exact Or.inr ⟨Check.version, versionRows_pair_gate s hc ver hv r h2⟩
  · exact Or.inr ⟨Check.uptime, uptimeRows_pair_gate s hc now r h3⟩
  · exact Or.inr ⟨Check.httpSsl, httpSslRows_pair_gate s hc r h4⟩
  · exact Or.inr ⟨Check.messages, messagesRows_pair_gate s hc r h5⟩
  · exact Or.inl (splunkdHealthRows_pair s r h6)
  · exact Or.inl (featuresRows_pair s r h7)
  · exact Or.inr ⟨Check.cpuCores, cpuCoresRows_pair_gate s hc r h8⟩
  · exact Or.inr ⟨Check.memCapacity, ramRows_pair_gate s hc r h9⟩
  · exact Or.inr ⟨Check.cpuUsage, usageRows_pair_gate _ _ _ _ r h10⟩
  · exact Or.inr ⟨Check.memUsage, usageRows_pair_gate _ _ _ _ r h11⟩
  · exact Or.inr ⟨Check.swapUsage, usageRows_pair_gate _ _ _ _ r h12⟩
  · exact Or.inr ⟨Check.diskUsage, diskRows_pair_gate s hc disk hd r h13⟩
  · exact Or.inl (portsRows_pair s r h14)
  · exact Or.inl (adjacencyRows_pair s r h15)
  · exact clusterRows_source s hc r h16
  · exact shclusterRows_source s hc r h17
  · exact Or.inl (countsRows_pair s r h18)

/-- C3: if a healthcheck's configured threshold(s) are all falsy, the
corresponding conditional row is absent from every successful report — no
row with that check's (category, name) appears with any health value. -/
theorem disabled_check_row_absent (s : Splunkd) (hc : Healthchecks) (now : Int)
    (rows : List Row) (h : reportBuilder s hc now = Except.ok rows)
    (c : Check) (hdis : checkEnabled c hc = false) :
    ∀ r ∈ rows, (r.category, r.name) ≠ checkPair c := by
  intro r hr hpair
  rcases report_row_source s hc now rows h r hr with hin | ⟨d, hpd, hen⟩
  · rw [hpair] at hin
    exact checkPair_not_uncond c hin
  · rw [hpair] at hpd
    have hdc : d = c := checkPair_inj d c hpd.symm
    subst hdc
    rw [hen] at hdis
    cases hdis

/-- Witness for C3: under the all-disabled config no row of the report
carries the Version check's (category, name) pair. -/
theorem disabled_check_row_absent_witness :
    reportBuilder splunkdInit hcAllOff 0 = Except.ok (okRowsOf splunkdInit hcAllOff 0) ∧
      checkEnabled Check.version hcAllOff = false ∧
      (okRowsOf splunkdInit hcAllOff 0).all
        (fun r => !((r.category, r.name) == checkPair Check.version)) = true := by
  refine ⟨by decide, by decide, ?_⟩
  rw [List.all_eq_true]
  intro r hr
  have h := disabled_check_row_absent splunkdInit hcAllOff 0 _ (by decide) Check.version
    (by decide) r hr
  simp only [Bool.not_eq_true', beq_eq_false_iff_ne]
  exact h
-- C9

/-- Python `str(value).replace(',', ';')` on the value column (single
character pattern, so a character-wise map). -/
def replaceCommaSemi (l : List Char) : List Char :=
  l.map (fun c => if c = ',' then ';' else c)

/-- One CSV record of `actionSaveReport_triggered`:
`"%s,%s,%s,%s" % (category, name, health, value.replace(',', ';'))`
(the trailing newline is the line separator, so lines are modeled as list
entries). -/
def csvLine (r : Row) : List Char :=
  r.category.data ++ (',' :: (r.name.data ++ (',' :: (r.health.data
    ++ (',' :: replaceCommaSemi r.value.data)))))

/-- The fixed CSV header row. -/
def reportHeaderLine : List Char := "Category,Name,Health,Value".data

/-- The lines of the saved report file: two `#` comment lines (tool
version and local time are runtime inputs), the header row, then one
record per report row in original order. -/
def saveReportLines (toolVersion localDatetime : List Char) (report : List Row) :
    List (List Char) :=
  ("# Misner Splunk Tool v".data ++ toolVersion
      ++ " by Joe Misner - http://tools.misner.net/".data)
    :: ("# Instance Report produced ".data ++ localDatetime)
    :: reportHeaderLine
    :: report.map csvLine

theorem splitOnChar_cons (sep c : Char) (cs : List Char) :
    splitOnChar sep (c :: cs) =
      match splitOnChar sep cs with
      | [] => if c = sep then [[], []] else [[c]]
      | h :: t => if c = sep then [] :: h :: t else (c :: h) :: t := rfl

theorem splitOnChar_ne_nil (sep : Char) (l : List Char) : splitOnChar sep l ≠ [] := by
  cases l with
  | nil => simp [splitOnChar]
  | cons c cs =>
    unfold splitOnChar
    split <;> split <;> simp

theorem splitOnChar_of_not_mem (sep : Char) (l : List Char) (h : sep ∉ l) :
    splitOnChar sep l = [l] := by
  induction l with
  | nil => rfl
  | cons c cs ih =>
    have hc : ¬c = sep := fun e => h (e ▸ List.mem_cons_self ..)
    have hcs : sep ∉ cs := fun hm => h (List.mem_cons_of_mem _ hm)
    unfold splitOnChar
    rw [ih hcs]
    simp [hc]

theorem splitOnChar_append_cons (sep : Char) (a rest : List Char) (h : sep ∉ a) :
    splitOnChar sep (a ++ sep :: rest) = a :: splitOnChar sep rest := by
  induction a with
  | nil =>
    cases hr : splitOnChar sep rest with
    | nil => exact absurd hr (splitOnChar_ne_nil sep rest)
    | cons x xs =>
      simp only [List.nil_append]
      unfold splitOnChar
      rw [hr]
      simp
  | cons c cs ih =>
    have hc : ¬c = sep := fun e => h (e ▸ List.mem_cons_self ..)
    have hcs : sep ∉ cs := fun hm => h (List.mem_cons_of_mem _ hm)
    simp only [List.cons_append]
    rw [splitOnChar_cons, ih hcs]
    simp [hc]

theorem comma_not_mem_replace (v : List Char) : ',' ∉ replaceCommaSemi v := by
  intro h
  rw [replaceCommaSemi, List.mem_map] at h
  obtain ⟨c, _, hc⟩ := h
  by_cases hcc : c = ','
  · rw [if_pos hcc] at hc
    exact absurd hc (by decide)
  · rw [if_neg hcc] at hc
    exact hcc hc

theorem nl_not_mem_replace (v : List Char) (h : '\n' ∉ v) : '\n' ∉ replaceCommaSemi v := by
  intro hm
  rw [replaceCommaSemi, List.mem_map] at hm
  obtain ⟨c, hcv, hc⟩ := hm
  by_cases hcc : c = ','
  · rw [if_pos hcc] at hc
    exact absurd hc (by decide)
  · rw [if_neg hcc] at hc
    exact h (hc ▸ hcv)

/-- C9: the report CSV export writes the header `Category,Name,Health,Value`
followed by one record per report row in original order (row count
preserved: lines = rows + the two comment lines + the header); provided
the category/name/health fields are comma-free (true of the fixed strings
the Report Builder emits) each record splits on commas into exactly the
four columns, with every comma inside the value replaced by a semicolon;
and provided no field contains a newline, every record stays on a single
line. -/
theorem csv_export_spec (toolVersion localDatetime : List Char) (report : List Row)
    (hcat : ∀ r ∈ report, ',' ∉ r.category.data ∧ ',' ∉ r.name.data ∧ ',' ∉ r.health.data)
    (hnl : ∀ r ∈ report, '\n' ∉ r.category.data ∧ '\n' ∉ r.name.data ∧
      '\n' ∉ r.health.data ∧ '\n' ∉ r.value.data) :
    (saveReportLines toolVersion localDatetime report).length = report.length + 3 ∧
    (saveReportLines toolVersion localDatetime report).drop 3 = report.map csvLine ∧
    (saveReportLines toolVersion localDatetime report).get? 2 = some reportHeaderLine ∧
    (∀ r ∈ report, splitOnChar ',' (csvLine r) =
      [r.category.data, r.name.data, r.health.data, replaceCommaSemi r.value.data]) ∧
    (∀ r ∈ report, '\n' ∉ csvLine r) := by
  refine ⟨by simp [saveReportLines], by simp [saveReportLines], by simp [saveReportLines], ?_, ?_⟩
  · intro r hr
    obtain ⟨hc1, hc2, hc3⟩ := hcat r hr
    unfold csvLine
    rw [splitOnChar_append_cons ',' _ _ hc1, splitOnChar_append_cons ',' _ _ hc2,
      splitOnChar_append_cons ',' _ _ hc3,
      splitOnChar_of_not_mem ',' _ (comma_not_mem_replace r.value.data)]
  · intro r hr
    obtain ⟨hn1, hn2, hn3, hn4⟩ := hnl r hr
    unfold csvLine
    intro hm
    simp only [List.mem_append, List.mem_cons] at hm
    rcases hm with hx | hx | hx | hx | hx | hx | hx
    · exact hn1 hx
    · exact absurd hx (by decide)
    · exact hn2 hx
    · exact absurd hx (by decide)
    · exact hn3 hx
    · exact absurd hx (by decide)
    · exact nl_not_mem_replace r.value.data hn4 hx

/-- Witness for C9: a row whose value contains commas exports as one
record of four columns with the commas turned into semicolons. -/
theorem csv_export_spec_witness :
    splitOnChar ','
        (csvLine ⟨"Adjacencies", "Search Peers", "", "idx1:8089, idx2:8089"⟩) =
      [("Adjacencies").data, ("Search Peers").data, "".data,
        replaceCommaSemi ("idx1:8089, idx2:8089").data] ∧
      replaceCommaSemi ("idx1:8089, idx2:8089").data = ("idx1:8089; idx2:8089").data := by
  constructor
  · exact (csv_export_spec [] [] [⟨"Adjacencies", "Search Peers", "", "idx1:8089, idx2:8089"⟩]
      (by decide) (by decide)).2.2.2.1
      ⟨"Adjacencies", "Search Peers", "", "idx1:8089, idx2:8089"⟩ (by decide)
  · decide
-- C8

/-- One candidate instance row of the discovery CSV
(`{address, port, username, password}`). -/
structure Instance where
  address : String
  port : String
  username : String
  password : String
  deriving DecidableEq, Repr

/-- The `host:port` key under which a successful poll is stored in
`splunkd_polls`. -/
def hostPort (i : Instance) : String := i.address ++ ":" ++ i.port

/-- Outcome of processing one instance inside `DiscoveryReportWorker.poll`.
The constructor-time connection can raise one of four exception classes
(all caught — the last handler is a bare `except:`); poll call number
`failStep` can raise `socket.error` (caught) or any other exception class
(`pollUncaught` — e.g. `ZeroDivisionError` on a zero-capacity mount or a
zero-swap host in `get_services_server_status`, or `KeyError`/`ValueError`
in `poll_service_settings` — which the `except socket.error` handler does
NOT catch, so it propagates out of the worker); `report_builder` can raise
(caught by a bare `except:`); or everything succeeds yielding the polled
data `d`. -/
inductive InstanceOutcome (α : Type) where
  | authError
  | gaierror
  | socketError (msg : String)
  | otherConnectError
  | pollSocketError (failStep : Nat) (msg : String)
  | pollUncaught (failStep : Nat)
  | reportError
  | ok (d : α)
  deriving DecidableEq, Repr

/-- Whether the outcome is an uncaught poll exception (the one class of
per-instance failure the worker's handlers do not contain). -/
def isUncaught {α : Type} : InstanceOutcome α → Bool
  | InstanceOutcome.pollUncaught _ => true
  | _ => false

/-- UI events the worker emits: `signalUpdateProgress.emit(n)` and
`signalUpdateTable.emit({row, text})`. -/
inductive WorkerEvent where
  | progress (n : Nat)
  | status (row : Nat) (text : String)
  deriving DecidableEq, Repr

/-- The fourteen per-poll status texts, in call order. -/
def pollStatusTexts : List String :=
  ["Polling service info...", "Polling settings...", "Polling messages...",
   "Polling configurations...", "Polling input status...", "Polling apps...",
   "Polling data collection info...", "Polling KV store info...",
   "Polling cluster master info...", "Polling search head cluster info...",
   "Polling deployment info...", "Polling licensing info...",
   "Polling distributed search info...", "Polling introspection..."]

/-- The `instance_status` texts emitted while processing one instance,
determined by its outcome (each is emitted with `row = instance_number - 1`). -/
def outcomeStatusTexts {α : Type} : InstanceOutcome α → List String
  | InstanceOutcome.authError => ["Connecting...", "Failed: Authentication error"]
  | InstanceOutcome.gaierror => ["Connecting...", "Failed: Unable to connect"]
  | InstanceOutcome.socketError msg =>
    ["Connecting...", "Failed: Unable to connect (" ++ msg ++ ")"]
  | InstanceOutcome.otherConnectError =>
    ["Connecting...", "Failed: Unable to connect (unknown exception)"]
  | InstanceOutcome.pollSocketError failStep msg =>
    "Connecting..." :: "Connected" :: pollStatusTexts.take failStep
      ++ ["Failed: Socket error while attempting to poll splunkd:\n" ++ msg]
  | InstanceOutcome.pollUncaught failStep =>
    "Connecting..." :: "Connected" :: pollStatusTexts.take failStep
  | InstanceOutcome.reportError =>
    "Connecting..." :: "Connected" :: pollStatusTexts
      ++ ["Building instance report...", "Failed: Unable to build instance report"]
  | InstanceOutcome.ok _ =>
    "Connecting..." :: "Connected" :: pollStatusTexts
      ++ ["Building instance report...", "Complete"]

/-- The events one loop iteration emits for `inst`:
`instance_number = self.instances.index(instance) + 1` (first occurrence in
the full list), a progress event, then the status texts at
`row = instance_number - 1`. -/
def instanceEvents {α : Type} (all : List Instance) (inst : Instance)
    (o : InstanceOutcome α) : List WorkerEvent :=
  WorkerEvent.progress (all.indexOf inst + 1)
    :: (outcomeStatusTexts o).map (WorkerEvent.status (all.indexOf inst))

/-- Python dict insertion: overwrite in place if the key exists, else
append. -/
def dictInsert {α : Type} (l : List (String × α)) (k : String) (v : α) :
    List (String × α) :=
  if l.any (fun p => p.1 = k) then l.map (fun p => if p.1 = k then (k, v) else p)
  else l ++ [(k, v)]

/-- The worker loop over the remaining instances (`all` is the full list,
consulted by `list.index`; `stop` is the cooperative-cancellation flag,
checked at each instance boundary).  The second component is the map the
final `signalPollingComplete.emit(splunkd_polls)` delivers: `none` when
that signal is never emitted — on cooperative cancellation (`return`
before the end of the loop) or when an uncaught poll exception propagates
out of the worker thread, killing the batch with the remaining instances
unvisited. -/
def discoveryGo {α : Type} (env : Instance → InstanceOutcome α) (all : List Instance)
    (stop : Bool) :
    List Instance → List (String × α) → List WorkerEvent × Option (List (String × α))
  | [], polls => ([], some polls)
  | inst :: rest, polls =>
    if stop then ([WorkerEvent.progress 0], none)
    else
      let evs := instanceEvents all inst (env inst)
      match env inst with
      | InstanceOutcome.ok d =>
        let r := discoveryGo env all stop rest (dictInsert polls (hostPort inst) d)
        (evs ++ r.1, r.2)
      | InstanceOutcome.pollUncaught _ => (evs, none)
      | _ =>
        let r := discoveryGo env all stop rest polls
        (evs ++ r.1, r.2)

/-- `DiscoveryReportWorker.poll`: iterate the instance list sequentially,
emitting progress/status events and collecting `host:port → data` for the
successful instances only; the map is delivered only if no uncaught poll
exception aborts the batch. -/
def discoveryPoll {α : Type} (env : Instance → InstanceOutcome α)
    (instances : List Instance) (stop : Bool) :
    List WorkerEvent × Option (List (String × α)) :=
  discoveryGo env instances stop instances []

/-- The progress number carried by a progress event. -/
def progressOf : WorkerEvent → Option Nat
  | WorkerEvent.progress n => some n
  | WorkerEvent.status _ _ => none

theorem discoveryGo_events {α : Type} (env : Instance → InstanceOutcome α)
    (all : List Instance) :
    ∀ (rem : List Instance) (polls : List (String × α)),
      (∀ i ∈ rem, isUncaught (env i) = false) →
      (discoveryGo env all false rem polls).1 =
        rem.flatMap (fun i => instanceEvents all i (env i)) := by
  intro rem
  induction rem with
  | nil => intro polls _; rfl
  | cons i rest ih =>
    intro polls hsafe
    have hrest : ∀ j ∈ rest, isUncaught (env j) = false :=
      fun j hj => hsafe j (List.mem_cons_of_mem _ hj)
    unfold discoveryGo
    simp only [if_neg (by decide : ¬(false = true))]
    cases h : env i
    case pollUncaught k =>
      have hi := hsafe i (List.mem_cons_self ..)
      rw [h] at hi
      simp [isUncaught] at hi
    all_goals simp [h, List.flatMap_cons]
    all_goals exact ih _ hrest
theorem discoveryGo_polls {α : Type} (env : Instance → InstanceOutcome α)
    (all : List Instance) :
    ∀ (rem : List Instance) (polls : List (String × α)),
      (∀ i ∈ rem, isUncaught (env i) = false) →
      (discoveryGo env all false rem polls).2 =
        some (rem.foldl (fun acc i =>
          match env i with
          | InstanceOutcome.ok d => dictInsert acc (hostPort i) d
          | _ => acc) polls) := by
  intro rem
  induction rem with
  | nil => intro polls _; rfl
  | cons i rest ih =>
    intro polls hsafe
    have hrest : ∀ j ∈ rest, isUncaught (env j) = false :=
      fun j hj => hsafe j (List.mem_cons_of_mem _ hj)
    unfold discoveryGo
    simp only [if_neg (by decide : ¬(false = true))]
    cases h : env i
    case pollUncaught k =>
      have hi := hsafe i (List.mem_cons_self ..)
      rw [h] at hi
      simp [isUncaught] at hi
    all_goals simp [h]
    all_goals exact ih _ hrest

theorem dictInsert_fresh {α : Type} (l : List (String × α)) (k : String) (v : α)
    (h : ∀ p ∈ l, p.1 ≠ k) : dictInsert l k v = l ++ [(k, v)] := by
  have hfalse : (l.any (fun p => p.1 = k)) = false := by
    rw [List.any_eq_false]
    intro p hp
    simpa using h p hp
  unfold dictInsert
  rw [hfalse]
  simp

theorem foldl_dictInsert_filterMap {α : Type} (env : Instance → InstanceOutcome α) :
    ∀ (rem : List Instance) (acc : List (String × α)),
      (rem.map hostPort).Nodup →
      (∀ i ∈ rem, ∀ p ∈ acc, p.1 ≠ hostPort i) →
      rem.foldl (fun acc i =>
          match env i with
          | InstanceOutcome.ok d => dictInsert acc (hostPort i) d
          | _ => acc) acc =
        acc ++ rem.filterMap (fun i =>
          match env i with
          | InstanceOutcome.ok d => some (hostPort i, d)
          | _ => none) := by
  intro rem
  induction rem with
  | nil => intro acc _ _; simp
  | cons i rest ih =>
    intro acc hnd hfresh
    have hnd' : (rest.map hostPort).Nodup := by
      rw [List.map_cons] at hnd
      exact hnd.of_cons
    have hnotin : hostPort i ∉ rest.map hostPort := by
      rw [List.map_cons] at hnd
      exact (List.nodup_cons.mp hnd).1
    simp only [List.foldl_cons, List.filterMap_cons]
    cases h : env i with
    | ok d =>
      dsimp only
      rw [dictInsert_fresh acc (hostPort i) d (fun p hp => hfresh i (List.mem_cons_self ..) p hp)]
      rw [ih (acc ++ [(hostPort i, d)]) hnd' ?_]
      · simp
      · intro j hj p hp
        rcases List.mem_append.mp hp with hpl | hpr
        · exact hfresh j (List.mem_cons_of_mem _ hj) p hpl
        · simp only [List.mem_singleton] at hpr
          subst hpr
          intro he
          apply hnotin
          rw [show hostPort i = hostPort j from he]
          exact List.mem_map_of_mem hostPort hj
    | authError =>
      exact ih acc hnd' (fun j hj => hfresh j (List.mem_cons_of_mem _ hj))
    | gaierror =>
      exact ih acc hnd' (fun j hj => hfresh j (List.mem_cons_of_mem _ hj))
    | socketError msg =>
      exact ih acc hnd' (fun j hj => hfresh j (List.mem_cons_of_mem _ hj))
    | otherConnectError =>
      exact ih acc hnd' (fun j hj => hfresh j (List.mem_cons_of_mem _ hj))
    | pollSocketError k msg =>
      exact ih acc hnd' (fun j hj => hfresh j (List.mem_cons_of_mem _ hj))
    | pollUncaught k =>
      exact ih acc hnd' (fun j hj => hfresh j (List.mem_cons_of_mem _ hj))
    | reportError =>
      exact ih acc hnd' (fun j hj => hfresh j (List.mem_cons_of_mem _ hj))

theorem filterMap_progress_instanceEvents {α : Type} (all : List Instance)
    (i : Instance) (o : InstanceOutcome α) :
    (instanceEvents all i o).filterMap progressOf = [all.indexOf i + 1] := by
  unfold instanceEvents
  simp only [List.filterMap_cons]
  have : ∀ texts : List String,
      (texts.map (WorkerEvent.status (all.indexOf i))).filterMap progressOf = [] := by
    intro texts
    induction texts with
    | nil => rfl
    | cons t ts ih => simp [progressOf, ih]
  simp [progressOf, this]

theorem nodup_indexOf_map {β : Type} [DecidableEq β] (l : List β) (h : l.Nodup) :
    l.map (fun i => l.indexOf i) = List.range l.length := by
  induction l with
  | nil => rfl
  | cons a t ih =>
    have hn := List.nodup_cons.mp h
    simp only [List.length_cons]
    rw [List.range_succ_eq_map]
    simp only [List.map_cons, List.indexOf_cons_self]
    congr 1
    have hmem : ∀ i ∈ t, (a :: t).indexOf i = t.indexOf i + 1 := by
      intro i hi
      have hne : i ≠ a := by
        intro e
        subst e
        exact hn.1 hi
      rw [List.indexOf_cons_ne _ (fun e => hne e.symm)]
    calc t.map (fun i => (a :: t).indexOf i)
        = t.map (fun i => t.indexOf i + 1) := List.map_congr_left hmem
      _ = (t.map (fun i => t.indexOf i)).map (fun x => x + 1) := by rw [List.map_map]; rfl
      _ = (List.range t.length).map (fun x => x + 1) := by rw [ih hn.2]
theorem flatMap_singleton_eq_map {β γ : Type} (l : List β) (g : β → γ) :
    l.flatMap (fun x => [g x]) = l.map g := by
  induction l with
  | nil => rfl
  | cons x xs ih => simp [List.flatMap_cons, ih]

theorem filterMap_flatMap {β γ : Type} (l : List β) (f : β → List WorkerEvent)
    (p : WorkerEvent → Option γ) :
    (l.flatMap f).filterMap p = l.flatMap (fun x => (f x).filterMap p) := by
  induction l with
  | nil => rfl
  | cons x xs ih => simp [List.flatMap_cons, List.filterMap_append, ih]

/-- C8 (amended): with cancellation not requested, pairwise-distinct
`host:port` pairs, and no instance whose poll raises an exception class
other than `socket.error` (the only class the poll handler catches), the
Discovery Orchestrator visits the instances sequentially in list order —
the emitted progress events are exactly `1, 2, …, n`, one per instance —
every caught connection, poll, or report failure of one instance only
records its per-instance failure status and the loop continues, and the
delivered map holds exactly the successfully polled instances, keyed by
`host:port`, in visit order.  An uncaught poll exception instead aborts
the whole batch (see the counterexample). -/
theorem discovery_sequential {α : Type} (env : Instance → InstanceOutcome α)
    (instances : List Instance) (hnd : (instances.map hostPort).Nodup)
    (hsafe : ∀ i ∈ instances, isUncaught (env i) = false) :
    (discoveryPoll env instances false).1.filterMap progressOf
        = (List.range instances.length).map (fun k => k + 1) ∧
      (discoveryPoll env instances false).2
        = some (instances.filterMap (fun i =>
            match env i with
            | InstanceOutcome.ok d => some (hostPort i, d)
            | _ => none)) ∧
      (∀ i ∈ instances, env i = InstanceOutcome.authError →
        WorkerEvent.status (instances.indexOf i) "Failed: Authentication error"
          ∈ (discoveryPoll env instances false).1) := by
  have hinst : instances.Nodup := hnd.of_map
  refine ⟨?_, ?_, ?_⟩
  · unfold discoveryPoll
    rw [discoveryGo_events env instances instances [] hsafe]
    rw [filterMap_flatMap]
    have hsingle : ∀ i ∈ instances,
        (instanceEvents instances i (env i)).filterMap progressOf
          = [instances.indexOf i + 1] := by
      intro i _
      exact filterMap_progress_instanceEvents instances i (env i)
    calc instances.flatMap (fun i => (instanceEvents instances i (env i)).filterMap progressOf)
        = instances.flatMap (fun i => [instances.indexOf i + 1]) := by
          exact List.flatMap_congr hsingle
      _ = instances.map (fun i => instances.indexOf i + 1) :=
          flatMap_singleton_eq_map instances (fun i => instances.indexOf i + 1)
      _ = (instances.map (fun i => instances.indexOf i)).map (fun k => k + 1) := by
          rw [List.map_map]; rfl
      _ = (List.range instances.length).map (fun k => k + 1) := by
          rw [nodup_indexOf_map instances hinst]
  · unfold discoveryPoll
    rw [discoveryGo_polls env instances instances [] hsafe]
    rw [foldl_dictInsert_filterMap env instances [] hnd (by intro i _ p hp; cases hp)]
    simp
  · intro i hi hauth
    unfold discoveryPoll
    rw [discoveryGo_events env instances instances [] hsafe]
    rw [List.mem_flatMap]
    refine ⟨i, hi, ?_⟩
    rw [hauth]
    simp [instanceEvents, outcomeStatusTexts]

/-- The spec's discovery scenario: five instances, the third failing
authentication. -/
def inst5 : List Instance :=
  [⟨"h1", "8089", "admin", "p"⟩, ⟨"h2", "8089", "admin", "p"⟩,
   ⟨"h3", "8089", "admin", "p"⟩, ⟨"h4", "8089", "admin", "p"⟩,
   ⟨"h5", "8089", "admin", "p"⟩]

/-- Outcome environment for `inst5`: authentication failure on `h3`
(a caught exception class), success elsewhere. -/
def env5 : Instance → InstanceOutcome Nat := fun i =>
  if i.address = "h3" then InstanceOutcome.authError else InstanceOutcome.ok 0

/-- Outcome environment where instance `h3`'s fourteenth poll call
(`get_services_server_status`) raises an exception the `except
socket.error` handler does not catch, such as `ZeroDivisionError` on a
zero-capacity disk mount. -/
def envZ : Instance → InstanceOutcome Nat := fun i =>
  if i.address = "h3" then InstanceOutcome.pollUncaught 14 else InstanceOutcome.ok 0

/-- C8 counterexample: when instance 3 of 5 fails its poll with an
exception class the worker does not catch (e.g. `ZeroDivisionError` from
a zero-capacity mount), the batch aborts — progress events stop at 3
(instances 4 and 5 are never visited) and the completion signal carrying
the map is never emitted — refuting "a single instance failure never
aborts the batch" and the claimed 4-entry map with progress for all 5. -/
theorem discovery_uncaught_aborts :
    (discoveryPoll envZ inst5 false).2 = none ∧
      (discoveryPoll envZ inst5 false).1.filterMap progressOf = [1, 2, 3] := by
  constructor
  · decide
  · decide

/-- Witness for the amended C8 theorem: progress events `1..5` in order,
a delivered four-entry result map, and the recorded per-instance
authentication failure of instance 3. -/
theorem discovery_sequential_witness :
    (discoveryPoll env5 inst5 false).1.filterMap progressOf = [1, 2, 3, 4, 5] ∧
      ((discoveryPoll env5 inst5 false).2.getD []).length = 4 ∧
      (discoveryPoll env5 inst5 false).2.isSome = true ∧
      WorkerEvent.status 2 "Failed: Authentication error"
        ∈ (discoveryPoll env5 inst5 false).1 := by
  have h := discovery_sequential env5 inst5 (by decide) (by decide)
  refine ⟨?_, by decide, by decide, ?_⟩
  · rw [h.1]
    decide
  · have h3 := h.2.2 ⟨"h3", "8089", "admin", "p"⟩ (by decide) (by decide)
    have he : inst5.indexOf ⟨"h3", "8089", "admin", "p"⟩ = 2 := by decide
    rw [he] at h3
    exact h3

-- C7

/-- Topology configuration (`main_window.topology`): the draw toggles and
colors the topology builder reads.  Layer heights/alignments and font size
only affect the plotted positions, which are downstream of the node-count
check this development studies, and are omitted. -/
structure TopoConfig where
  nodedraw_user : Bool
  nodedraw_searchhead : Bool
  nodedraw_indexer : Bool
  nodedraw_heavyforwarder : Bool
  nodedraw_universalforwarder : Bool
  nodedraw_mgmtconsole : Bool
  nodedraw_shcdeployer : Bool
  nodedraw_clustermaster : Bool
  nodedraw_deploymentserver : Bool
  nodedraw_licensemaster : Bool
  nodedraw_inputs : Bool
  adjdraw_web : Bool
  adjdraw_distsearch : Bool
  adjdraw_datafwdheavyforwarder : Bool
  adjdraw_datafwduniversalforwarder : Bool
  adjdraw_datafwdinput : Bool
  adjdraw_clustermgmt : Bool
  adjdraw_bucketrep : Bool
  adjdraw_shcdeployment : Bool
  adjdraw_mgmtconsole : Bool
  adjdraw_deployment : Bool
  adjdraw_license : Bool
  nodecolor_user : String
  nodecolor_searchhead : String
  nodecolor_indexer : String
  nodecolor_heavyforwarder : String
  nodecolor_universalforwarder : String
  nodecolor_mgmtconsole : String
  nodecolor_shcdeployer : String
  nodecolor_clustermaster : String
  nodecolor_deploymentserver : String
  nodecolor_licensemaster : String
  nodecolor_inputs : String
  nodecolor_others : String
  adjcolor_web : String
  adjcolor_distsearch : String
  adjcolor_datafwd : String
  adjcolor_clustermgmt : String
  adjcolor_bucketrep : String
  adjcolor_shcdeployment : String
  adjcolor_mgmtconsole : String
  adjcolor_deployment : String
  adjcolor_license : String
  deriving DecidableEq, Repr

/-- The `networkx.Graph`: nodes keyed by name with an optional `color`
attribute, undirected edges with a `color` attribute. -/
structure Graph where
  nodes : List (String × Option String)
  edges : List (String × String × String)
  deriving DecidableEq, Repr

/-- Node membership (`n in Graph.nodes`). -/
def Graph.hasNode (g : Graph) (n : String) : Bool := g.nodes.any (fun p => p.1 = n)

/-- `Graph.add_node(n, color=c)`: update the attribute if the node exists,
else append it. -/
def Graph.addNode (g : Graph) (n : String) (c : Option String) : Graph :=
  if g.hasNode n then
    { g with nodes := g.nodes.map (fun p => if p.1 = n then (n, c) else p) }
  else { g with nodes := g.nodes ++ [(n, c)] }

/-- Auto-creation of an edge endpoint (`add_edge` adds missing endpoints
without attributes). -/
def Graph.ensureNode (g : Graph) (n : String) : Graph :=
  if g.hasNode n then g else { g with nodes := g.nodes ++ [(n, none)] }

/-- `Graph.add_edge(u, v, color=c)` on an undirected graph: endpoints are
auto-created, an existing `(u, v)`/`(v, u)` edge has its color updated,
otherwise the edge is appended. -/
def Graph.addEdge (g : Graph) (u v : String) (c : String) : Graph :=
  let g2 := (g.ensureNode u).ensureNode v
  if g2.edges.any (fun e => (e.1 = u && e.2.1 = v) || (e.1 = v && e.2.1 = u)) then
    let updated := g2.edges.map
      (fun e => if (e.1 = u && e.2.1 = v) || (e.1 = v && e.2.1 = u) then (e.1, e.2.1, c) else e)
    { g2 with edges := updated }
  else { g2 with edges := g2.edges ++ [(u, v, c)] }

/-- `Graph.add_nodes_from(ns, color=c)`. -/
def Graph.addNodesFrom (g : Graph) (ns : List String) (c : String) : Graph :=
  ns.foldl (fun g n => g.addNode n (some c)) g

/-- Python `set.add` on a set modeled as an insertion-ordered
duplicate-free list. -/
def setAdd (l : List String) (x : String) : List String :=
  if x ∈ l then l else l ++ [x]

/-- The role buckets of the `nodes` dictionary (the fixed
`user = frozenset({'webuser'})` entry is kept separate). -/
structure Buckets where
  sh : List String
  idx : List String
  hf : List String
  uf : List String
  mc : List String
  shcd : List String
  cm : List String
  ds : List String
  lm : List String
  input : List String
  other : List String
  deriving DecidableEq, Repr

/-- Names of the role buckets. -/
inductive BucketId where
  | sh
  | idx
  | hf
  | uf
  | mc
  | shcd
  | cm
  | ds
  | lm
  | input
  | other
  deriving DecidableEq, Repr

/-- Add a name to the designated bucket. -/
def Buckets.add (b : Buckets) : BucketId → String → Buckets
  | BucketId.sh, n => { b with sh := setAdd b.sh n }
  | BucketId.idx, n => { b with idx := setAdd b.idx n }
  | BucketId.hf, n => { b with hf := setAdd b.hf n }
  | BucketId.uf, n => { b with uf := setAdd b.uf n }
  | BucketId.mc, n => { b with mc := setAdd b.mc n }
  | BucketId.shcd, n => { b with shcd := setAdd b.shcd n }
  | BucketId.cm, n => { b with cm := setAdd b.cm n }
  | BucketId.ds, n => { b with ds := setAdd b.ds n }
  | BucketId.lm, n => { b with lm := setAdd b.lm n }
  | BucketId.input, n => { b with input := setAdd b.input n }
  | BucketId.other, n => { b with other := setAdd b.other n }

/-- `str.lower(x).split('.')[0]`: lowercase, drop the DNS suffix. -/
def pyCleanName (s : String) : String :=
  String.mk ((splitOnChar '.' s.toLower.data).headD [])

/-- The bucket chosen by the primary-role dispatch of the instance loop
(`primary_role[0:11] == "Search Head"`, etc.); roles matching no branch
join no bucket. -/
def roleBucket (primary_role : String) : Option BucketId :=
  if primary_role.take 11 = "Search Head" then some BucketId.sh
  else if primary_role.take 7 = "Indexer" then some BucketId.idx
  else if primary_role = "Heavy Forwarder" then some BucketId.hf
  else if primary_role = "Universal Forwarder" then some BucketId.uf
  else if primary_role = "Management Console" then some BucketId.mc
  else if primary_role = "Deployer (SHC)" then some BucketId.shcd
  else if primary_role = "Cluster Master" then some BucketId.cm
  else if primary_role = "Deployment Server" then some BucketId.ds
  else if primary_role = "License Master" then some BucketId.lm
  else if primary_role = "Forwarder" then some BucketId.uf
  else none

/-- The instance loop of `buttonTopology_clicked`: clean each polled
instance's server name, key the `instances` dictionary by it, and add it
to the bucket of its primary role.  (The `labels` dictionary built
alongside carries only display strings and is omitted.) -/
def classifyInstances (polls : List (String × Splunkd)) :
    List (String × Splunkd) × Buckets :=
  polls.foldl
    (fun acc kv =>
      let clean := pyCleanName kv.2.server_name
      (dictInsert acc.1 clean kv.2,
       match roleBucket kv.2.primary_role with
       | some bid => acc.2.add bid clean
       | none => acc.2))
    ([], ⟨[], [], [], [], [], [], [], [], [], [], []⟩)

/-- `ent_nodes = set().union(sh, idx, hf, mc, shcd, cm, ds, uf)`. -/
def entNodesOf (b : Buckets) : List String :=
  [b.sh, b.idx, b.hf, b.mc, b.shcd, b.cm, b.ds, b.uf].foldl
    (fun acc l => l.foldl setAdd acc) []

/-- The four invisible corner anchor nodes, seeded before anything else
purely to force the rendered aspect ratio. -/
def seedCorners : Graph :=
  { nodes := [("cornernw", some "#ffffff"), ("cornerne", some "#ffffff"),
              ("cornersw", some "#ffffff"), ("cornerse", some "#ffffff")],
    edges := [] }

/-- The per-toggle `add_nodes_from` block. -/
def drawNodes (g : Graph) (topo : TopoConfig) (b : Buckets) : Graph :=
  let g := if topo.nodedraw_user then g.addNodesFrom ["webuser"] ("#" ++ topo.nodecolor_user) else g
  let g := if topo.nodedraw_searchhead then g.addNodesFrom b.sh ("#" ++ topo.nodecolor_searchhead) else g
  let g := if topo.nodedraw_indexer then g.addNodesFrom b.idx ("#" ++ topo.nodecolor_indexer) else g
  let g := if topo.nodedraw_heavyforwarder then g.addNodesFrom b.hf ("#" ++ topo.nodecolor_heavyforwarder) else g
  let g := if topo.nodedraw_universalforwarder then g.addNodesFrom b.uf ("#" ++ topo.nodecolor_universalforwarder) else g
  let g := if topo.nodedraw_mgmtconsole then g.addNodesFrom b.mc ("#" ++ topo.nodecolor_mgmtconsole) else g
  let g := if topo.nodedraw_shcdeployer then g.addNodesFrom b.shcd ("#" ++ topo.nodecolor_shcdeployer) else g
  let g := if topo.nodedraw_clustermaster then g.addNodesFrom b.cm ("#" ++ topo.nodecolor_clustermaster) else g
  let g := if topo.nodedraw_deploymentserver then g.addNodesFrom b.ds ("#" ++ topo.nodecolor_deploymentserver) else g
  let g := if topo.nodedraw_licensemaster then g.addNodesFrom b.lm ("#" ++ topo.nodecolor_licensemaster) else g
  if topo.nodedraw_inputs then g.addNodesFrom b.input ("#" ++ topo.nodecolor_inputs) else g

/-- Whole-token form of the IPv4 regex of `add_adjacency` (a dotted quad
of octets 0–255; the Python regex also fires on a dotted quad embedded in
a longer token, which no reference produced by the polled data takes). -/
def isIPv4 (s : String) : Bool :=
  let parts := splitOnChar '.' s.data
  parts.length = 4 && parts.all
    (fun p => !p.isEmpty && p.length ≤ 3 && p.all Char.isDigit && (digitsVal p).getD 256 ≤ 255)

/-- Dictionary lookup in the `instances` map. -/
def lookupInst (m : List (String × Splunkd)) (k : String) : Option Splunkd :=
  (m.find? (fun p => p.1 = k)).map (fun p => p.2)

/-- `add_adjacency(discovered_node, dn_role, dn_color, adj_node, adj_color)`:
skip `"(...)"` sentinels (indexing `discovered_node[0]` of an empty
reference raises `IndexError`), strip the port suffix, resolve IPv4
references through reverse DNS (`resolve`) falling back to the raw IP,
lowercase and truncate hostnames to their first DNS label, then create the
discovered node if new and add the colored edge. -/
def addAdjacency (topo : TopoConfig) (resolve : String → Option String)
    (st : Graph × Buckets) (discovered : String) (dnRole : BucketId)
    (dnColor : String) (adjNode : String) (adjColor : String) :
    Except PyErr (Graph × Buckets) :=
  match discovered.data with
  | [] => Except.error PyErr.indexError
  | c :: _ =>
    if c = '(' && discovered.data.getLast? = some (Char.ofNat 41) then Except.ok st
    else
      let base := String.mk ((splitOnChar ':' discovered.data).headD [])
      let name :=
        if isIPv4 base then
          match resolve base with
          | some h => pyCleanName h
          | none => base
        else pyCleanName base
      let g := st.1
      let b := st.2
      let gb : Graph × Buckets :=
        if g.hasNode name then (g, b)
        else (g.addNode name (some ("#" ++ dnColor)), b.add dnRole name)
      Except.ok (gb.1.addEdge name adjNode ("#" ++ adjColor), gb.2)

/-- The Web Access rule: its edge is guarded by
`nodes['user'] in Graph.nodes`, which tests the *frozenset itself* for
node membership and is therefore never true — the rule draws nothing. -/
def ruleWeb (topo : TopoConfig) (st : Graph × Buckets) :
    Except PyErr (Graph × Buckets) :=
  Except.ok st

/-- Distributed Search from Search Heads. -/
def ruleDistsearch (topo : TopoConfig) (resolve : String → Option String)
    (instMap : List (String × Splunkd)) (st : Graph × Buckets) :
    Except PyErr (Graph × Buckets) :=
  if topo.adjdraw_distsearch then
    st.2.sh.foldlM
      (fun st1 sh =>
        match lookupInst instMap sh with
        | none => Except.ok st1
        | some spl =>
          spl.distributedsearch_peers.foldlM
            (fun st2 peer =>
              addAdjacency topo resolve st2 peer.peerName BucketId.idx
                topo.nodecolor_indexer sh topo.adjcolor_distsearch)
            st1)
      st
  else Except.ok st

/-- Data Forwarding (shared by the heavy-forwarder, universal-forwarder
and inputs variants, which differ only in toggle and bucket). -/
def ruleDatafwd (topo : TopoConfig) (resolve : String → Option String)
    (instMap : List (String × Splunkd)) (toggle : Bool)
    (select : Buckets → List String) (st : Graph × Buckets) :
    Except PyErr (Graph × Buckets) :=
  if toggle then
    (select st.2).foldlM
      (fun st1 fwd =>
        match lookupInst instMap fwd with
        | none => Except.ok st1
        | some spl =>
          spl.forward_servers.foldlM
            (fun st2 server =>
              addAdjacency topo resolve st2 server.title BucketId.idx
                topo.nodecolor_indexer fwd topo.adjcolor_datafwd)
            st1)
      st
  else Except.ok st

/-- Cluster Management from Cluster Masters. -/
def ruleClustermgmt (topo : TopoConfig) (resolve : String → Option String)
    (instMap : List (String × Splunkd)) (st : Graph × Buckets) :
    Except PyErr (Graph × Buckets) :=
  if topo.adjdraw_clustermgmt then
    st.2.cm.foldlM
      (fun st1 cm =>
        match lookupInst instMap cm with
        | none => Except.ok st1
        | some spl =>
          spl.cluster_peers.foldlM
            (fun st2 peer =>
              addAdjacency topo resolve st2 peer.location BucketId.idx
                topo.nodecolor_indexer cm topo.adjcolor_clustermgmt)
            st1)
      st
  else Except.ok st

/-- Bucket Replication between Indexers.  (The Python loop iterates the
live `nodes['idx']` set while `add_adjacency` may add to it, which would
raise `RuntimeError`; the model iterates the snapshot taken at loop entry —
in either semantics the not-enough-nodes message is not produced.) -/
def ruleBucketrep (topo : TopoConfig) (resolve : String → Option String)
    (instMap : List (String × Splunkd)) (st : Graph × Buckets) :
    Except PyErr (Graph × Buckets) :=
  if topo.adjdraw_bucketrep then
    st.2.idx.foldlM
      (fun st1 idx =>
        match lookupInst instMap idx with
        | none => Except.ok st1
        | some spl =>
          spl.cluster_peers.foldlM
            (fun st2 peer =>
              addAdjacency topo resolve st2 peer.location BucketId.idx
                topo.nodecolor_indexer idx topo.adjcolor_bucketrep)
            st1)
      st
  else Except.ok st

/-- SHC Deployer for Search Heads. -/
def ruleShcDeployment (topo : TopoConfig) (resolve : String → Option String)
    (instMap : List (String × Splunkd)) (st : Graph × Buckets) :
    Except PyErr (Graph × Buckets) :=
  if topo.adjdraw_shcdeployment then
    st.2.sh.foldlM
      (fun st1 sh =>
        match lookupInst instMap sh with
        | none => Except.ok st1
        | some spl =>
          addAdjacency topo resolve st1 spl.shcluster_deployer BucketId.shcd
            topo.nodecolor_shcdeployer sh topo.adjcolor_shcdeployment)
      st
  else Except.ok st

/-- Distributed Search from Management Consoles (`instances[mc]` is
accessed without a membership guard: a missing key raises `KeyError`,
though every `mc` bucket entry names a polled instance). -/
def ruleMgmtconsole (topo : TopoConfig) (resolve : String → Option String)
    (instMap : List (String × Splunkd)) (st : Graph × Buckets) :
    Except PyErr (Graph × Buckets) :=
  if topo.adjdraw_mgmtconsole then
    st.2.mc.foldlM
      (fun st1 mc =>
        match lookupInst instMap mc with
        | none => Except.error PyErr.keyError
        | some spl =>
          spl.distributedsearch_peers.foldlM
            (fun st2 peer =>
              addAdjacency topo resolve st2 peer.peerName BucketId.other
                topo.nodecolor_others mc topo.adjcolor_mgmtconsole)
            st1)
      st
  else Except.ok st

/-- Deployment Server rule. -/
def ruleDeployment (topo : TopoConfig) (resolve : String → Option String)
    (instMap : List (String × Splunkd)) (st : Graph × Buckets) :
    Except PyErr (Graph × Buckets) :=
  if topo.adjdraw_deployment then
    st.2.ds.foldlM
      (fun st1 ds =>
        match lookupInst instMap ds with
        | none => Except.error PyErr.keyError
        | some spl =>
          spl.deployment_clients.foldlM
            (fun st2 client =>
              addAdjacency topo resolve st2 (client.dns ++ ":" ++ client.mgmt)
                BucketId.other topo.nodecolor_others ds topo.adjcolor_deployment)
            st1)
      st
  else Except.ok st

/-- License rule over `ent_nodes`. -/
def ruleLicense (topo : TopoConfig) (resolve : String → Option String)
    (instMap : List (String × Splunkd)) (ent : List String) (st : Graph × Buckets) :
    Except PyErr (Graph × Buckets) :=
  if topo.adjdraw_license then
    ent.foldlM
      (fun st1 slave =>
        match lookupInst instMap slave with
        | none => Except.error PyErr.keyError
        | some spl =>
          addAdjacency topo resolve st1 spl.license_master BucketId.other
            topo.nodecolor_others slave topo.adjcolor_license)
      st
  else Except.ok st

/-- The eleven adjacency rules in source order. -/
def runAdjacencyRules (topo : TopoConfig) (resolve : String → Option String)
    (instMap : List (String × Splunkd)) (ent : List String) (st : Graph × Buckets) :
    Except PyErr (Graph × Buckets) :=
  ruleWeb topo st
    >>= ruleDistsearch topo resolve instMap
    >>= ruleDatafwd topo resolve instMap topo.adjdraw_datafwdheavyforwarder Buckets.hf
    >>= ruleDatafwd topo resolve instMap topo.adjdraw_datafwduniversalforwarder Buckets.uf
    >>= ruleDatafwd topo resolve instMap topo.adjdraw_datafwdinput Buckets.input
    >>= ruleClustermgmt topo resolve instMap
    >>= ruleBucketrep topo resolve instMap
    >>= ruleShcDeployment topo resolve instMap
    >>= ruleMgmtconsole topo resolve instMap
    >>= ruleDeployment topo resolve instMap
    >>= ruleLicense topo resolve instMap ent

/-- Result of `buttonTopology_clicked`'s build phase: either the
not-enough-nodes report or the assembled graph. -/
inductive TopologyOutcome where
  | notEnoughNodes
  | topology (g : Graph)
  deriving DecidableEq, Repr

/-- The Topology Builder of `buttonTopology_clicked`, up to the node-count
check: seed the corner anchors, classify the polled instances into role
buckets, draw the toggled buckets, run the adjacency rules, then report
`notEnoughNodes` when the graph holds at most one node (position layout
and rendering are downstream of this check). -/
def buildTopology (polls : List (String × Splunkd)) (topo : TopoConfig)
    (resolve : String → Option String) : Except PyErr TopologyOutcome :=
  let cb := classifyInstances polls
  let g1 := drawNodes seedCorners topo cb.2
  match runAdjacencyRules topo resolve cb.1 (entNodesOf cb.2) (g1, cb.2) with
  | Except.error e => Except.error e
  | Except.ok st =>
    if st.1.nodes.length ≤ 1 then Except.ok TopologyOutcome.notEnoughNodes
    else Except.ok (TopologyOutcome.topology st.1)

/-- Whether the build reported the not-enough-nodes message. -/
def reportedNotEnough (r : Except PyErr TopologyOutcome) : Bool :=
  match r with
  | Except.ok TopologyOutcome.notEnoughNodes => true
  | _ => false
/-- Monotonicity of the node count under a graph-transforming step. -/
def GMono (f : Graph × Buckets → Except PyErr (Graph × Buckets)) : Prop :=
  ∀ st st', f st = Except.ok st' → st.1.nodes.length ≤ st'.1.nodes.length

theorem addNode_length_le (g : Graph) (n : String) (c : Option String) :
    g.nodes.length ≤ (g.addNode n c).nodes.length := by
  unfold Graph.addNode
  split
  · simp
  · simp

theorem ensureNode_length_le (g : Graph) (n : String) :
    g.nodes.length ≤ (g.ensureNode n).nodes.length := by
  unfold Graph.ensureNode
  split
  · exact le_refl _
  · simp

theorem addEdge_length_le (g : Graph) (u v : String) (c : String) :
    g.nodes.length ≤ (g.addEdge u v c).nodes.length := by
  have h1 : g.nodes.length ≤ ((g.ensureNode u).ensureNode v).nodes.length :=
    le_trans (ensureNode_length_le g u) (ensureNode_length_le _ v)
  unfold Graph.addEdge
  dsimp only
  split
  · exact h1
  · exact h1

theorem addNodesFrom_length_le (ns : List String) (c : String) :
    ∀ g : Graph, g.nodes.length ≤ (g.addNodesFrom ns c).nodes.length := by
  induction ns with
  | nil => intro g; exact le_refl _
  | cons n rest ih =>
    intro g
    unfold Graph.addNodesFrom
    simp only [List.foldl_cons]
    exact le_trans (addNode_length_le g n (some c)) (ih (g.addNode n (some c)))

theorem GMono_ok : GMono Except.ok := by
  intro st st' h
  injection h with h
  subst h
  exact le_refl _

theorem GMono_err (e : PyErr) : GMono (fun _ => Except.error e) := by
  intro st st' h
  exact Except.noConfusion h

set_option maxHeartbeats 1000000 in
theorem addAdjacency_mono (topo : TopoConfig) (resolve : String → Option String)
    (d : String) (dnRole : BucketId) (dnColor adjNode adjColor : String) :
    GMono (fun st => addAdjacency topo resolve st d dnRole dnColor adjNode adjColor) := by
  intro st st' h
  dsimp only at h
  unfold addAdjacency at h
  cases hd : d.data with
  | nil =>
    simp only [hd] at h
    exact Except.noConfusion h
  | cons c cs =>
    simp only [hd] at h
    split at h
    · injection h with h
      subst h
      exact le_refl _
    · injection h with h
      subst h
      dsimp only
      repeat' split
      all_goals
        first
          | exact addEdge_length_le ..
          | exact le_trans (addNode_length_le ..) (addEdge_length_le ..)

theorem foldlM_mono {β : Type} (f : Graph × Buckets → β → Except PyErr (Graph × Buckets))
    (hf : ∀ b, GMono (fun st => f st b)) :
    ∀ l : List β, GMono (fun st => l.foldlM f st) := by
  intro l
  induction l with
  | nil =>
    intro st st' h
    dsimp only at h
    injection h with h
    subst h
    exact le_refl _
  | cons b rest ih =>
    intro st st' h
    dsimp only at h
    rw [List.foldlM_cons] at h
    cases hfb : f st b with
    | error e => rw [hfb] at h; exact Except.noConfusion h
    | ok mid =>
      rw [hfb] at h
      exact le_trans (hf b st mid hfb) (ih mid st' h)

theorem GMono_bind (f g : Graph × Buckets → Except PyErr (Graph × Buckets))
    (hf : GMono f) (hg : GMono g) : GMono (fun st => f st >>= g) := by
  intro st st' h
  dsimp only at h
  cases hfb : f st with
  | error e => rw [hfb] at h; exact Except.noConfusion h
  | ok mid =>
    rw [hfb] at h
    exact le_trans (hf st mid hfb) (hg mid st' h)

theorem matchLookup_mono (instMap : List (String × Splunkd)) (k : String)
    (f : Splunkd → Graph × Buckets → Except PyErr (Graph × Buckets))
    (hf : ∀ spl, GMono (f spl))
    (miss : Graph × Buckets → Except PyErr (Graph × Buckets)) (hmiss : GMono miss) :
    GMono (fun st => match lookupInst instMap k with
      | none => miss st
      | some spl => f spl st) := by
  intro st st' h
  cases hl : lookupInst instMap k with
  | none => rw [hl] at h; exact hmiss st st' h
  | some spl => rw [hl] at h; exact hf spl st st' h

theorem ruleWeb_mono (topo : TopoConfig) : GMono (ruleWeb topo) := by
  intro st st' h
  injection h with h
  subst h
  exact le_refl _

theorem ruleDistsearch_mono (topo : TopoConfig) (resolve : String → Option String)
    (instMap : List (String × Splunkd)) : GMono (ruleDistsearch topo resolve instMap) := by
  intro st st' h
  unfold ruleDistsearch at h
  split at h
  · refine foldlM_mono _ ?_ st.2.sh st st' h
    intro sh
    exact matchLookup_mono instMap sh _
      (fun spl => foldlM_mono _
        (fun peer => addAdjacency_mono topo resolve peer.peerName BucketId.idx
          topo.nodecolor_indexer sh topo.adjcolor_distsearch)
        spl.distributedsearch_peers)
      Except.ok GMono_ok
  · exact GMono_ok st st' h

theorem ruleDatafwd_mono (topo : TopoConfig) (resolve : String → Option String)
    (instMap : List (String × Splunkd)) (toggle : Bool) (select : Buckets → List String) :
    GMono (ruleDatafwd topo resolve instMap toggle select) := by
  intro st st' h
  unfold ruleDatafwd at h
  split at h
  · refine foldlM_mono _ ?_ (select st.2) st st' h
    intro fwd
    exact matchLookup_mono instMap fwd _
      (fun spl => foldlM_mono _
        (fun server => addAdjacency_mono topo resolve server.title BucketId.idx
          topo.nodecolor_indexer fwd topo.adjcolor_datafwd)
        spl.forward_servers)
      Except.ok GMono_ok
  · exact GMono_ok st st' h

theorem ruleClustermgmt_mono (topo : TopoConfig) (resolve : String → Option String)
    (instMap : List (String × Splunkd)) : GMono (ruleClustermgmt topo resolve instMap) := by
  intro st st' h
  unfold ruleClustermgmt at h
  split at h
  · refine foldlM_mono _ ?_ st.2.cm st st' h
    intro cm
    exact matchLookup_mono instMap cm _
      (fun spl => foldlM_mono _
        (fun peer => addAdjacency_mono topo resolve peer.location BucketId.idx
          topo.nodecolor_indexer cm topo.adjcolor_clustermgmt)
        spl.cluster_peers)
      Except.ok GMono_ok
  · exact GMono_ok st st' h

theorem ruleBucketrep_mono (topo : TopoConfig) (resolve : String → Option String)
    (instMap : List (String × Splunkd)) : GMono (ruleBucketrep topo resolve instMap) := by
  intro st st' h
  unfold ruleBucketrep at h
  split at h
  · refine foldlM_mono _ ?_ st.2.idx st st' h
    intro idx
    exact matchLookup_mono instMap idx _
      (fun spl => foldlM_mono _
        (fun peer => addAdjacency_mono topo resolve peer.location BucketId.idx
          topo.nodecolor_indexer idx topo.adjcolor_bucketrep)
        spl.cluster_peers)
      Except.ok GMono_ok
  · exact GMono_ok st st' h

theorem ruleShcDeployment_mono (topo : TopoConfig) (resolve : String → Option String)
    (instMap : List (String × Splunkd)) : GMono (ruleShcDeployment topo resolve instMap) := by
  intro st st' h
  unfold ruleShcDeployment at h
  split at h
  · refine foldlM_mono _ ?_ st.2.sh st st' h
    intro sh
    exact matchLookup_mono instMap sh _
      (fun spl => addAdjacency_mono topo resolve spl.shcluster_deployer BucketId.shcd
        topo.nodecolor_shcdeployer sh topo.adjcolor_shcdeployment)
      Except.ok GMono_ok
  · exact GMono_ok st st' h

theorem ruleMgmtconsole_mono (topo : TopoConfig) (resolve : String → Option String)
    (instMap : List (String × Splunkd)) : GMono (ruleMgmtconsole topo resolve instMap) := by
  intro st st' h
  unfold ruleMgmtconsole at h
  split at h
  · refine foldlM_mono _ ?_ st.2.mc st st' h
    intro mc
    exact matchLookup_mono instMap mc _
      (fun spl => foldlM_mono _
        (fun peer => addAdjacency_mono topo resolve peer.peerName BucketId.other
          topo.nodecolor_others mc topo.adjcolor_mgmtconsole)
        spl.distributedsearch_peers)
      (fun _ => Except.error PyErr.keyError) (GMono_err _)
  · exact GMono_ok st st' h

theorem ruleDeployment_mono (topo : TopoConfig) (resolve : String → Option String)
    (instMap : List (String × Splunkd)) : GMono (ruleDeployment topo resolve instMap) := by
  intro st st' h
  unfold ruleDeployment at h
  split at h
  · refine foldlM_mono _ ?_ st.2.ds st st' h
    intro ds
    exact matchLookup_mono instMap ds _
      (fun spl => foldlM_mono _
        (fun client => addAdjacency_mono topo resolve (client.dns ++ ":" ++ client.mgmt)
          BucketId.other topo.nodecolor_others ds topo.adjcolor_deployment)
        spl.deployment_clients)
      (fun _ => Except.error PyErr.keyError) (GMono_err _)
  · exact GMono_ok st st' h

theorem ruleLicense_mono (topo : TopoConfig) (resolve : String → Option String)
    (instMap : List (String × Splunkd)) (ent : List String) :
    GMono (ruleLicense topo resolve instMap ent) := by
  intro st st' h
  unfold ruleLicense at h
  split at h
  · refine foldlM_mono _ ?_ ent st st' h
    intro slave
    exact matchLookup_mono instMap slave _
      (fun spl => addAdjacency_mono topo resolve spl.license_master BucketId.other
        topo.nodecolor_others slave topo.adjcolor_license)
      (fun _ => Except.error PyErr.keyError) (GMono_err _)
  · exact GMono_ok st st' h

theorem runAdjacencyRules_mono (topo : TopoConfig) (resolve : String → Option String)
    (instMap : List (String × Splunkd)) (ent : List String) :
    GMono (runAdjacencyRules topo resolve instMap ent) := by
  unfold runAdjacencyRules
  exact GMono_bind _ _
    (GMono_bind _ _
      (GMono_bind _ _
        (GMono_bind _ _
          (GMono_bind _ _
            (GMono_bind _ _
              (GMono_bind _ _
                (GMono_bind _ _
                  (GMono_bind _ _
                    (GMono_bind _ _ (ruleWeb_mono topo)
                      (ruleDistsearch_mono topo resolve instMap))
                    (ruleDatafwd_mono topo resolve instMap _ _))
                  (ruleDatafwd_mono topo resolve instMap _ _))
                (ruleDatafwd_mono topo resolve instMap _ _))
              (ruleClustermgmt_mono topo resolve instMap))
            (ruleBucketrep_mono topo resolve instMap))
          (ruleShcDeployment_mono topo resolve instMap))
        (ruleMgmtconsole_mono topo resolve instMap))
      (ruleDeployment_mono topo resolve instMap))
    (ruleLicense_mono topo resolve instMap ent)

theorem drawNodes_length_le (g : Graph) (topo : TopoConfig) (b : Buckets) :
    g.nodes.length ≤ (drawNodes g topo b).nodes.length := by
  have key : ∀ (g : Graph) (cond : Bool) (ns : List String) (c : String),
      g.nodes.length ≤ (if cond then g.addNodesFrom ns c else g).nodes.length := by
    intro g cond ns c
    split
    · exact addNodesFrom_length_le ns c g
    · exact le_refl _
  unfold drawNodes
  dsimp only
  refine le_trans ?_ (key _ _ _ _)
  refine le_trans ?_ (key _ _ _ _)
  refine le_trans ?_ (key _ _ _ _)
  refine le_trans ?_ (key _ _ _ _)
  refine le_trans ?_ (key _ _ _ _)
  refine le_trans ?_ (key _ _ _ _)
  refine le_trans ?_ (key _ _ _ _)
  refine le_trans ?_ (key _ _ _ _)
  refine le_trans ?_ (key _ _ _ _)
  refine le_trans ?_ (key _ _ _ _)
  exact key _ _ _ _
/-- A topology config with every node and adjacency toggle off (colors
irrelevant). -/
def topoOff : TopoConfig :=
  { nodedraw_user := false, nodedraw_searchhead := false, nodedraw_indexer := false,
    nodedraw_heavyforwarder := false, nodedraw_universalforwarder := false,
    nodedraw_mgmtconsole := false, nodedraw_shcdeployer := false,
    nodedraw_clustermaster := false, nodedraw_deploymentserver := false,
    nodedraw_licensemaster := false, nodedraw_inputs := false,
    adjdraw_web := false, adjdraw_distsearch := false,
    adjdraw_datafwdheavyforwarder := false, adjdraw_datafwduniversalforwarder := false,
    adjdraw_datafwdinput := false, adjdraw_clustermgmt := false,
    adjdraw_bucketrep := false, adjdraw_shcdeployment := false,
    adjdraw_mgmtconsole := false, adjdraw_deployment := false, adjdraw_license := false,
    nodecolor_user := "", nodecolor_searchhead := "", nodecolor_indexer := "",
    nodecolor_heavyforwarder := "", nodecolor_universalforwarder := "",
    nodecolor_mgmtconsole := "", nodecolor_shcdeployer := "",
    nodecolor_clustermaster := "", nodecolor_deploymentserver := "",
    nodecolor_licensemaster := "", nodecolor_inputs := "", nodecolor_others := "",
    adjcolor_web := "", adjcolor_distsearch := "", adjcolor_datafwd := "",
    adjcolor_clustermgmt := "", adjcolor_bucketrep := "",
    adjcolor_shcdeployment := "", adjcolor_mgmtconsole := "",
    adjcolor_deployment := "", adjcolor_license := "" }

/-- C7: the not-enough-nodes report is dead code.  The four invisible
corner anchors are seeded before the `len(Graph.nodes) <= 1` check and
every later step only adds nodes, so no input — not even zero polled
instances — ever produces the "insufficient data" report; with zero
instances and all toggles off, the build instead returns a degenerate
graph consisting of the four corner anchors alone. -/
theorem topology_not_enough_dead_code :
    (∀ (polls : List (String × Splunkd)) (topo : TopoConfig)
        (resolve : String → Option String),
      reportedNotEnough (buildTopology polls topo resolve) = false) ∧
      buildTopology [] topoOff (fun _ => none)
        = Except.ok (TopologyOutcome.topology seedCorners) := by
  constructor
  · intro polls topo resolve
    unfold buildTopology
    dsimp only
    cases hr : runAdjacencyRules topo resolve (classifyInstances polls).1
        (entNodesOf (classifyInstances polls).2)
        (drawNodes seedCorners topo (classifyInstances polls).2, (classifyInstances polls).2) with
    | error e => rfl
    | ok st =>
      have h4 : 4 ≤ st.1.nodes.length := by
        have hm := runAdjacencyRules_mono topo resolve (classifyInstances polls).1
          (entNodesOf (classifyInstances polls).2) _ st hr
        have hd : (4 : Nat) ≤
            (drawNodes seedCorners topo (classifyInstances polls).2).nodes.length :=
          drawNodes_length_le seedCorners topo (classifyInstances polls).2
        exact le_trans hd hm
      show reportedNotEnough
          (if st.1.nodes.length ≤ 1 then Except.ok TopologyOutcome.notEnoughNodes
           else Except.ok (TopologyOutcome.topology st.1)) = false
      rw [if_neg (by omega)]
      rfl
  · decide
